import Mathlib

/-!
# ST7789 display driver (`src/st7789.c`)

A shallow embedding of the driver.  The driver talks to three external
collaborators (SPI peripheral, GPIO lines, blocking delays); every call to one
of them is recorded, with its arguments, as an `Event` appended to the `trace`
field of the driver state.  The four file-level statics of the C file
(`st7789_cfg`, `st7789_width`, `st7789_height`, `st7789_data_mode`) are the
other fields of the state, and every C function becomes a function from state
to state.
-/

namespace St7789

/-! ## Collaborator calls -/

/-- Bit order argument of `spi_set_format`. -/
inductive SpiOrder
  | SPI_LSB_FIRST
  | SPI_MSB_FIRST
  deriving DecidableEq, Repr

/-- Pin function argument of `gpio_set_function`; the driver only uses one. -/
inductive GpioFunction
  | GPIO_FUNC_SPI
  deriving DecidableEq, Repr

/-- The field of `struct st7789_config` that a GPIO call site names
(`st7789_cfg.gpio_din`, `st7789_cfg.gpio_clk`, `st7789_cfg.gpio_cs`, ...). -/
inductive Line
  | din
  | clk
  | cs
  | dc
  | rst
  | bl
  deriving DecidableEq, Repr

/-- One call to an external collaborator.  GPIO events carry both the
configuration field named at the call site and the pin number passed.
`spi_write_blocking spi src` is a write of the bytes `src`;
`spi_write16_blocking spi src len` is a transfer of `len` 16-bit words read
from the buffer whose bytes are `src`. -/
inductive Event
  | spi_init (spi baudrate : Nat)
  | spi_set_format (spi bits cpol cpha : Nat) (order : SpiOrder)
  | spi_write_blocking (spi : Nat) (src : List Nat)
  | spi_write16_blocking (spi : Nat) (src : List Nat) (len : Nat)
  | gpio_set_function (line : Line) (gpio : Nat) (fn : GpioFunction)
  | gpio_init (line : Line) (gpio : Nat)
  | gpio_set_dir (line : Line) (gpio : Nat) (out : Bool)
  | gpio_put (line : Line) (gpio : Nat) (value : Bool)
  | sleep_us (us : Nat)
  | sleep_ms (ms : Nat)
  deriving DecidableEq, Repr

/-! ## Driver state -/

/-- The C `struct st7789_config` (`include/pico/st7789.h`): `spi` is the bus
handle, `gpio_cs` is a signed `int` whose negative values mean "no chip-select
line", the other pins are `uint`. -/
structure st7789_config where
  spi : Nat
  gpio_din : Nat
  gpio_clk : Nat
  gpio_cs : Int
  gpio_dc : Nat
  gpio_rst : Nat
  gpio_bl : Nat
  deriving DecidableEq, Repr

/-- The file-level statics of `st7789.c` together with the log of collaborator
calls made so far. -/
structure Driver where
  st7789_cfg : st7789_config
  st7789_width : Nat
  st7789_height : Nat
  st7789_data_mode : Bool
  trace : List Event
  deriving DecidableEq, Repr

/-- The statics as the C runtime initialises them: zeroed configuration and
geometry, `st7789_data_mode = false`, nothing emitted yet. -/
def Driver.boot : Driver :=
  { st7789_cfg := ⟨0, 0, 0, 0, 0, 0, 0⟩
    st7789_width := 0
    st7789_height := 0
    st7789_data_mode := false
    trace := [] }

/-- Record one collaborator call. -/
def emit (s : Driver) (e : Event) : Driver :=
  { s with trace := s.trace ++ [e] }

/-- Conversion of a value to `uint8_t`. -/
def u8 (n : Nat) : Nat := n % 256

/-- Conversion of a (possibly negative) `int` value to `uint16_t`. -/
def u16 (i : Int) : Nat := (i % 65536).toNat

/-- The table `const uint8_t madctl_rotation[] = {0x00, 0x60};`. -/
def madctl_rotation : List Nat := [0x00, 0x60]

/-! ## The driver functions -/

/-- The C function `st7789_cmd(cmd, data, len)`: `cmd` is a `uint8_t` value,
`data` the payload bytes, and `len` is `data.length` (every call site passes
`sizeof(data)`, or `NULL, 0` for the empty payload). -/
def st7789_cmd (s : Driver) (cmd : Nat) (data : List Nat) : Driver :=
  let s := if s.st7789_cfg.gpio_cs > -1 then
      emit s (.spi_set_format s.st7789_cfg.spi 8 0 0 .SPI_MSB_FIRST)
    else
      emit s (.spi_set_format s.st7789_cfg.spi 8 1 1 .SPI_MSB_FIRST)
  let s := { s with st7789_data_mode := false }
  let s := emit s (.sleep_us 1)
  let s := if s.st7789_cfg.gpio_cs > -1 then
      emit s (.gpio_put .cs s.st7789_cfg.gpio_cs.toNat false)
    else s
  let s := emit s (.gpio_put .dc s.st7789_cfg.gpio_dc false)
  let s := emit s (.sleep_us 1)
  let s := emit s (.spi_write_blocking s.st7789_cfg.spi [cmd])
  let s := if data.length ≠ 0 then
      let s := emit s (.sleep_us 1)
      let s := emit s (.gpio_put .dc s.st7789_cfg.gpio_dc true)
      let s := emit s (.sleep_us 1)
      emit s (.spi_write_blocking s.st7789_cfg.spi data)
    else s
  let s := emit s (.sleep_us 1)
  let s := if s.st7789_cfg.gpio_cs > -1 then
      emit s (.gpio_put .cs s.st7789_cfg.gpio_cs.toNat true)
    else s
  let s := emit s (.gpio_put .dc s.st7789_cfg.gpio_dc true)
  emit s (.sleep_us 1)

/-- The C function `st7789_caset(xs, xe)`: `xs` and `xe` are `uint16_t` values
(below 65536); the four array elements are stored as `uint8_t`. -/
def st7789_caset (s : Driver) (xs xe : Nat) : Driver :=
  let data := [u8 (xs >>> 8), u8 (xs &&& 0xff), u8 (xe >>> 8), u8 (xe &&& 0xff)]
  st7789_cmd s 0x2a data

/-- The C function `st7789_raset(ys, ye)`: `ys` and `ye` are `uint16_t` values;
the four array elements are stored as `uint8_t`. -/
def st7789_raset (s : Driver) (ys ye : Nat) : Driver :=
  let data := [u8 (ys >>> 8), u8 (ys &&& 0xff), u8 (ye >>> 8), u8 (ye &&& 0xff)]
  st7789_cmd s 0x2b data

/-- The C function `st7789_init(config, width, height, rotation)`.  `width`
and `height` are `uint16_t` values; `rotation` is the numeric value of the
enumerator.  The read `madctl_rotation[rotation]`
is the only fallible step: outside the table it is undefined behaviour in C and
the embedding returns `none`.  `width - 1` and `height - 1` are computed in
`int` and converted to `uint16_t` at the call. -/
def st7789_init (s : Driver) (config : st7789_config) (width height rotation : Nat) :
    Option Driver := do
  let s := { s with st7789_cfg := config }
  let s := { s with st7789_width := width }
  let s := { s with st7789_height := height }
  let s := emit s (.spi_init s.st7789_cfg.spi (125 * 1000 * 1000))
  let s := if s.st7789_cfg.gpio_cs > -1 then
      emit s (.spi_set_format s.st7789_cfg.spi 8 0 0 .SPI_MSB_FIRST)
    else
      emit s (.spi_set_format s.st7789_cfg.spi 8 1 1 .SPI_MSB_FIRST)
  let s := emit s (.gpio_set_function .din s.st7789_cfg.gpio_din .GPIO_FUNC_SPI)
  let s := emit s (.gpio_set_function .clk s.st7789_cfg.gpio_clk .GPIO_FUNC_SPI)
  let s := if s.st7789_cfg.gpio_cs > -1 then
      emit s (.gpio_init .cs s.st7789_cfg.gpio_cs.toNat)
    else s
  let s := emit s (.gpio_init .dc s.st7789_cfg.gpio_dc)
  let s := emit s (.gpio_init .rst s.st7789_cfg.gpio_rst)
  let s := emit s (.gpio_init .bl s.st7789_cfg.gpio_bl)
  let s := if s.st7789_cfg.gpio_cs > -1 then
      emit s (.gpio_set_dir .cs s.st7789_cfg.gpio_cs.toNat true)
    else s
  let s := emit s (.gpio_set_dir .dc s.st7789_cfg.gpio_dc true)
  let s := emit s (.gpio_set_dir .rst s.st7789_cfg.gpio_rst true)
  let s := emit s (.gpio_set_dir .bl s.st7789_cfg.gpio_bl true)
  let s := if s.st7789_cfg.gpio_cs > -1 then
      emit s (.gpio_put .cs s.st7789_cfg.gpio_cs.toNat true)
    else s
  let s := emit s (.gpio_put .dc s.st7789_cfg.gpio_dc true)
  let s := emit s (.gpio_put .rst s.st7789_cfg.gpio_rst true)
  let s := emit s (.sleep_ms 100)
  let s := st7789_cmd s 0x01 []
  let s := emit s (.sleep_ms 150)
  let s := st7789_cmd s 0x11 []
  let s := emit s (.sleep_ms 50)
  let s := st7789_cmd s 0x3a [0x55]
  let s := emit s (.sleep_ms 10)
  let m ← madctl_rotation[rotation]?
  let s := st7789_cmd s 0x36 [m]
  let s := st7789_caset s 0 (u16 ((width : Int) - 1))
  let s := st7789_raset s 0 (u16 ((height : Int) - 1))
  let s := st7789_cmd s 0x21 []
  let s := emit s (.sleep_ms 10)
  let s := st7789_cmd s 0x13 []
  let s := emit s (.sleep_ms 10)
  let s := st7789_cmd s 0x29 []
  let s := emit s (.sleep_ms 10)
  let s := emit s (.gpio_put .bl s.st7789_cfg.gpio_bl true)
  return s

/-- The C function `st7789_ramwr()`. -/
def st7789_ramwr (s : Driver) : Driver :=
  let s := emit s (.sleep_us 1)
  let s := if s.st7789_cfg.gpio_cs > -1 then
      emit s (.gpio_put .cs s.st7789_cfg.gpio_cs.toNat false)
    else s
  let s := emit s (.gpio_put .dc s.st7789_cfg.gpio_dc false)
  let s := emit s (.sleep_us 1)
  let cmd := 0x2c
  let s := emit s (.spi_write_blocking s.st7789_cfg.spi [cmd])
  let s := emit s (.sleep_us 1)
  let s := if s.st7789_cfg.gpio_cs > -1 then
      emit s (.gpio_put .cs s.st7789_cfg.gpio_cs.toNat false)
    else s
  let s := emit s (.gpio_put .dc s.st7789_cfg.gpio_dc true)
  emit s (.sleep_us 1)

/-- The C function `st7789_write(data, len)`: `data` is the buffer (its bytes),
`len` the `size_t` byte count passed alongside it.  The function returns
`void`. -/
def st7789_write (s : Driver) (data : List Nat) (len : Nat) : Driver :=
  let s := if !s.st7789_data_mode then
      let s := st7789_ramwr s
      let s := if s.st7789_cfg.gpio_cs > -1 then
          emit s (.spi_set_format s.st7789_cfg.spi 16 0 0 .SPI_MSB_FIRST)
        else
          emit s (.spi_set_format s.st7789_cfg.spi 16 1 1 .SPI_MSB_FIRST)
      { s with st7789_data_mode := true }
    else s
  emit s (.spi_write16_blocking s.st7789_cfg.spi data (len / 2))

/-- The C function `st7789_set_window(xs, xe, ys, ye)`, all four `uint16_t`
values. -/
def st7789_set_window (s : Driver) (xs xe ys ye : Nat) : Driver :=
  let s := st7789_caset s xs xe
  st7789_raset s ys ye

/-- The C function `st7789_vertical_scroll(row)`: `row` is a `uint16_t` value;
the two array elements are stored as `uint8_t`. -/
def st7789_vertical_scroll (s : Driver) (row : Nat) : Driver :=
  let data := [u8 ((row >>> 8) &&& 0xff), u8 (row &&& 0x00ff)]
  st7789_cmd s 0x37 data

/-! ## Observers on traces -/

/-- The events a call appended: what `after` logged beyond `before`. -/
def emitted (before after : Driver) : List Event :=
  after.trace.drop before.trace.length

/-- The chip's view of the serial interface while a trace is replayed: the
level of the data/command line and the commands latched so far, most recent
first, each with the parameter bytes that followed it. -/
structure Wire where
  dc : Bool
  cmds : List (Nat × List Nat)
  deriving DecidableEq, Repr

/-- Replay one event.  A byte written while data/command is low is an opcode; bytes
written while it is high are parameters of the most recent opcode.  16-bit
transfers are pixel data and belong to no command's parameter list. -/
def Wire.step (w : Wire) : Event → Wire
  | .gpio_put .dc _ v => { w with dc := v }
  | .spi_write_blocking _ src =>
    if w.dc then
      match w.cmds with
      | [] => w
      | (op, ps) :: rest => { w with cmds := (op, ps ++ src) :: rest }
    else
      { w with cmds := (src.map fun b => (b, ([] : List Nat))).reverse ++ w.cmds }
  | _ => w

/-- The commands, in order of transmission and each with its payload, that a
trace delivers to the chip; the data/command line starts at its idle (high) level. -/
def commandsOf (evs : List Event) : List (Nat × List Nat) :=
  (evs.foldl Wire.step ⟨true, []⟩).cmds.reverse

/-- The opcodes of `commandsOf`. -/
def opcodesOf (evs : List Event) : List Nat :=
  (commandsOf evs).map Prod.fst

/-- The word sizes of the bus-format configurations in a trace, in order. -/
def formatsOf (evs : List Event) : List Nat :=
  evs.filterMap fun e =>
    match e with
    | .spi_set_format _ bits _ _ _ => some bits
    | _ => none

/-- The 16-bit transfers of a trace, in order: buffer and word count. -/
def transfers16 (evs : List Event) : List (List Nat × Nat) :=
  evs.filterMap fun e =>
    match e with
    | .spi_write16_blocking _ src len => some (src, len)
    | _ => none

/-- The millisecond waits of a trace, in order. -/
def msWaits (evs : List Event) : List Nat :=
  evs.filterMap fun e =>
    match e with
    | .sleep_ms ms => some ms
    | _ => none

/-- Whether the event is a write on the SPI bus (8-bit or 16-bit). -/
def isBusWrite : Event → Bool
  | .spi_write_blocking _ _ => true
  | .spi_write16_blocking _ _ _ => true
  | _ => false

/-- Whether the event drives the given line to the given level. -/
def drives (l : Line) (v : Bool) : Event → Bool
  | .gpio_put l' _ v' => l' = l && v' = v
  | _ => false

/-- The command bracket of `st7789_cmd` written out as a list of events. -/
def frame (cfg : st7789_config) (cmd : Nat) (data : List Nat) : List Event :=
  [.spi_set_format cfg.spi 8 (if cfg.gpio_cs > -1 then 0 else 1)
      (if cfg.gpio_cs > -1 then 0 else 1) .SPI_MSB_FIRST,
    .sleep_us 1]
  ++ (if cfg.gpio_cs > -1 then [.gpio_put .cs cfg.gpio_cs.toNat false] else [])
  ++ [.gpio_put .dc cfg.gpio_dc false, .sleep_us 1, .spi_write_blocking cfg.spi [cmd]]
  ++ (if data.length ≠ 0 then
        [.sleep_us 1, .gpio_put .dc cfg.gpio_dc true, .sleep_us 1,
          .spi_write_blocking cfg.spi data]
      else [])
  ++ [.sleep_us 1]
  ++ (if cfg.gpio_cs > -1 then [.gpio_put .cs cfg.gpio_cs.toNat true] else [])
  ++ [.gpio_put .dc cfg.gpio_dc true, .sleep_us 1]

/-- The preamble of `st7789_ramwr` written out as a list of events. -/
def ramwrEvents (cfg : st7789_config) : List Event :=
  [.sleep_us 1]
  ++ (if cfg.gpio_cs > -1 then [.gpio_put .cs cfg.gpio_cs.toNat false] else [])
  ++ [.gpio_put .dc cfg.gpio_dc false, .sleep_us 1, .spi_write_blocking cfg.spi [0x2c],
      .sleep_us 1]
  ++ (if cfg.gpio_cs > -1 then [.gpio_put .cs cfg.gpio_cs.toNat false] else [])
  ++ [.gpio_put .dc cfg.gpio_dc true, .sleep_us 1]

/-- The bus-format configuration that opens a streaming session in
`st7789_write`. -/
def format16 (cfg : st7789_config) : Event :=
  .spi_set_format cfg.spi 16 (if cfg.gpio_cs > -1 then 0 else 1)
    (if cfg.gpio_cs > -1 then 0 else 1) .SPI_MSB_FIRST

/-- The bus, function, init and direction calls at the head of `st7789_init`,
up to the point where the lines are put to their idle levels. -/
def initPins (cfg : st7789_config) : List Event :=
  [.spi_init cfg.spi 125000000,
    .spi_set_format cfg.spi 8 (if cfg.gpio_cs > -1 then 0 else 1)
      (if cfg.gpio_cs > -1 then 0 else 1) .SPI_MSB_FIRST,
    .gpio_set_function .din cfg.gpio_din .GPIO_FUNC_SPI,
    .gpio_set_function .clk cfg.gpio_clk .GPIO_FUNC_SPI]
  ++ (if cfg.gpio_cs > -1 then [.gpio_init .cs cfg.gpio_cs.toNat] else [])
  ++ [.gpio_init .dc cfg.gpio_dc, .gpio_init .rst cfg.gpio_rst, .gpio_init .bl cfg.gpio_bl]
  ++ (if cfg.gpio_cs > -1 then [.gpio_set_dir .cs cfg.gpio_cs.toNat true] else [])
  ++ [.gpio_set_dir .dc cfg.gpio_dc true, .gpio_set_dir .rst cfg.gpio_rst true,
      .gpio_set_dir .bl cfg.gpio_bl true]

/-- What `st7789_init` emits before the bracket of its last command (0x29),
written out as a list of events; `m` is the table byte read for the rotation. -/
def initHead (cfg : st7789_config) (width height m : Nat) : List Event :=
  initPins cfg
  ++ (if cfg.gpio_cs > -1 then [.gpio_put .cs cfg.gpio_cs.toNat true] else [])
  ++ [.gpio_put .dc cfg.gpio_dc true, .gpio_put .rst cfg.gpio_rst true, .sleep_ms 100]
  ++ frame cfg 0x01 [] ++ [.sleep_ms 150]
  ++ frame cfg 0x11 [] ++ [.sleep_ms 50]
  ++ frame cfg 0x3a [0x55] ++ [.sleep_ms 10]
  ++ frame cfg 0x36 [m]
  ++ frame cfg 0x2a [u8 (0 >>> 8), u8 (0 &&& 0xff),
      u8 (u16 ((width : Int) - 1) >>> 8), u8 (u16 ((width : Int) - 1) &&& 0xff)]
  ++ frame cfg 0x2b [u8 (0 >>> 8), u8 (0 &&& 0xff),
      u8 (u16 ((height : Int) - 1) >>> 8), u8 (u16 ((height : Int) - 1) &&& 0xff)]
  ++ frame cfg 0x21 [] ++ [.sleep_ms 10]
  ++ frame cfg 0x13 [] ++ [.sleep_ms 10]

/-- Everything `st7789_init` emits, written out as a list of events. -/
def initEvents (cfg : st7789_config) (width height m : Nat) : List Event :=
  initHead cfg width height m
  ++ frame cfg 0x29 [] ++ [.sleep_ms 10]
  ++ [.gpio_put .bl cfg.gpio_bl true]

/-- Consecutive calls of `st7789_write`, one per buffer `(data, len)`, with
nothing in between. -/
def writeAll (s : Driver) (bufs : List (List Nat × Nat)) : Driver :=
  bufs.foldl (fun s b => st7789_write s b.1 b.2) s

/-- Read a byte string back as big-endian 16-bit values. -/
def be16 : List Nat → List Nat
  | hi :: lo :: rest => (256 * hi + lo) :: be16 rest
  | _ => []

/-- What a `st7789_write` that opens a streaming session emits from state `t`:
the chip receives the single command 0x2C, the bus is reconfigured once, to 16
bits, and the events are the `st7789_ramwr` preamble, then the reconfiguration,
then the transfer of `len / 2` words. -/
def OpensStream (t : Driver) (buf : List Nat) (len : Nat) : Prop :=
  commandsOf (emitted t (st7789_write t buf len)) = [(0x2C, [])]
  ∧ formatsOf (emitted t (st7789_write t buf len)) = [16]
  ∧ emitted t (st7789_write t buf len) =
      ramwrEvents t.st7789_cfg
      ++ [format16 t.st7789_cfg, .spi_write16_blocking t.st7789_cfg.spi buf (len / 2)]

instance (t : Driver) (buf : List Nat) (len : Nat) : Decidable (OpensStream t buf len) := by
  unfold OpensStream
  infer_instance

/-! ## Sequences of public operations -/

/-- A call of one of the four functions declared in `include/pico/st7789.h`,
with its arguments. -/
inductive Op
  | write (data : List Nat) (len : Nat)
  | set_window (xs xe ys ye : Nat)
  | vertical_scroll (row : Nat)
  | init (config : st7789_config) (width height rotation : Nat)
  deriving DecidableEq, Repr

/-- Run one public operation. -/
def applyOp (s : Driver) : Op → Option Driver
  | .write data len => some (st7789_write s data len)
  | .set_window xs xe ys ye => some (st7789_set_window s xs xe ys ye)
  | .vertical_scroll row => some (st7789_vertical_scroll s row)
  | .init config width height rotation => st7789_init s config width height rotation

/-- Run a sequence of public operations, first to last. -/
def runOps (s : Driver) : List Op → Option Driver
  | [] => some s
  | op :: ops => (applyOp s op).bind fun t => runOps t ops

/-- The same operation for a driver wired as `cfg`: the configuration handed to
`st7789_init` is `cfg`, everything else is unchanged. -/
def Op.withConfig (cfg : st7789_config) : Op → Op
  | .init _ width height rotation => .init cfg width height rotation
  | .write data len => .write data len
  | .set_window xs xe ys ye => .set_window xs xe ys ye
  | .vertical_scroll row => .vertical_scroll row

/-! ## Segments of the driver functions -/

/-- Lines 21-35 of `st7789_cmd`: from its first statement up to and including
the write of the opcode byte. -/
def st7789_cmd_opcode (s : Driver) (cmd : Nat) : Driver :=
  let s := if s.st7789_cfg.gpio_cs > -1 then
      emit s (.spi_set_format s.st7789_cfg.spi 8 0 0 .SPI_MSB_FIRST)
    else
      emit s (.spi_set_format s.st7789_cfg.spi 8 1 1 .SPI_MSB_FIRST)
  let s := { s with st7789_data_mode := false }
  let s := emit s (.sleep_us 1)
  let s := if s.st7789_cfg.gpio_cs > -1 then
      emit s (.gpio_put .cs s.st7789_cfg.gpio_cs.toNat false)
    else s
  let s := emit s (.gpio_put .dc s.st7789_cfg.gpio_dc false)
  let s := emit s (.sleep_us 1)
  emit s (.spi_write_blocking s.st7789_cfg.spi [cmd])

/-- Lines 153-162 of `st7789_ramwr`: from its first statement up to and
including the write of the opcode byte 0x2C. -/
def st7789_ramwr_opcode (s : Driver) : Driver :=
  let s := emit s (.sleep_us 1)
  let s := if s.st7789_cfg.gpio_cs > -1 then
      emit s (.gpio_put .cs s.st7789_cfg.gpio_cs.toNat false)
    else s
  let s := emit s (.gpio_put .dc s.st7789_cfg.gpio_dc false)
  let s := emit s (.sleep_us 1)
  let cmd := 0x2c
  emit s (.spi_write_blocking s.st7789_cfg.spi [cmd])

/-- Lines 81-114 of `st7789_init`: the statements before its first call of
`st7789_cmd`. -/
def st7789_init_setup (s : Driver) (config : st7789_config) (width height : Nat) : Driver :=
  let s := { s with st7789_cfg := config }
  let s := { s with st7789_width := width }
  let s := { s with st7789_height := height }
  let s := emit s (.spi_init s.st7789_cfg.spi (125 * 1000 * 1000))
  let s := if s.st7789_cfg.gpio_cs > -1 then
      emit s (.spi_set_format s.st7789_cfg.spi 8 0 0 .SPI_MSB_FIRST)
    else
      emit s (.spi_set_format s.st7789_cfg.spi 8 1 1 .SPI_MSB_FIRST)
  let s := emit s (.gpio_set_function .din s.st7789_cfg.gpio_din .GPIO_FUNC_SPI)
  let s := emit s (.gpio_set_function .clk s.st7789_cfg.gpio_clk .GPIO_FUNC_SPI)
  let s := if s.st7789_cfg.gpio_cs > -1 then
      emit s (.gpio_init .cs s.st7789_cfg.gpio_cs.toNat)
    else s
  let s := emit s (.gpio_init .dc s.st7789_cfg.gpio_dc)
  let s := emit s (.gpio_init .rst s.st7789_cfg.gpio_rst)
  let s := emit s (.gpio_init .bl s.st7789_cfg.gpio_bl)
  let s := if s.st7789_cfg.gpio_cs > -1 then
      emit s (.gpio_set_dir .cs s.st7789_cfg.gpio_cs.toNat true)
    else s
  let s := emit s (.gpio_set_dir .dc s.st7789_cfg.gpio_dc true)
  let s := emit s (.gpio_set_dir .rst s.st7789_cfg.gpio_rst true)
  let s := emit s (.gpio_set_dir .bl s.st7789_cfg.gpio_bl true)
  let s := if s.st7789_cfg.gpio_cs > -1 then
      emit s (.gpio_put .cs s.st7789_cfg.gpio_cs.toNat true)
    else s
  let s := emit s (.gpio_put .dc s.st7789_cfg.gpio_dc true)
  let s := emit s (.gpio_put .rst s.st7789_cfg.gpio_rst true)
  emit s (.sleep_ms 100)

/-- Lines 81-128 of `st7789_init`: everything it executes before it reads
`madctl_rotation[rotation]`.  The rotation is not used in these lines. -/
def st7789_init_head (s : Driver) (config : st7789_config) (width height : Nat) : Driver :=
  let s := st7789_init_setup s config width height
  let s := st7789_cmd s 0x01 []
  let s := emit s (.sleep_ms 150)
  let s := st7789_cmd s 0x11 []
  let s := emit s (.sleep_ms 50)
  let s := st7789_cmd s 0x3a [0x55]
  emit s (.sleep_ms 10)

/-- Lines 131-148 of `st7789_init`: what it executes once the table byte `m`
has been read. -/
def st7789_init_tail (s : Driver) (width height m : Nat) : Driver :=
  let s := st7789_cmd s 0x36 [m]
  let s := st7789_caset s 0 (u16 ((width : Int) - 1))
  let s := st7789_raset s 0 (u16 ((height : Int) - 1))
  let s := st7789_cmd s 0x21 []
  let s := emit s (.sleep_ms 10)
  let s := st7789_cmd s 0x13 []
  let s := emit s (.sleep_ms 10)
  let s := st7789_cmd s 0x29 []
  let s := emit s (.sleep_ms 10)
  emit s (.gpio_put .bl s.st7789_cfg.gpio_bl true)

/-! ## Observers on the bus configuration and the lines -/

/-- The bus as a trace leaves it: the word size last configured (`none` before
any configuration), the level of the data/command line, and, most recent first,
the word size that was in force at each write of an opcode byte. -/
structure Bus where
  width : Option Nat
  dc : Bool
  opcodeWidths : List (Option Nat)
  deriving DecidableEq, Repr

/-- Replay one event on the bus view; a byte written with data/command low is an
opcode byte. -/
def Bus.step (b : Bus) : Event → Bus
  | .spi_set_format _ bits _ _ _ => { b with width := some bits }
  | .gpio_put .dc _ v => { b with dc := v }
  | .spi_write_blocking _ src =>
    if b.dc then b
    else { b with opcodeWidths := (src.map fun _ => b.width).reverse ++ b.opcodeWidths }
  | _ => b

/-- The word size the bus is configured for after a trace. -/
def busWidth (evs : List Event) : Option Nat :=
  (evs.foldl Bus.step ⟨none, true, []⟩).width

/-- For each opcode byte written in a trace, in order, the word size the bus was
configured for at that moment. -/
def opcodeWidths (evs : List Event) : List (Option Nat) :=
  (evs.foldl Bus.step ⟨none, true, []⟩).opcodeWidths.reverse

/-- The level a trace leaves a line at: the value of the last `gpio_put` that
names the line, `none` if there is none. -/
def levelOf (l : Line) (evs : List Event) : Option Bool :=
  evs.foldl (fun lv e =>
    match e with
    | .gpio_put l' _ v => if l' = l then some v else lv
    | _ => lv) none

/-- Whether the event is a GPIO call that names the given line. -/
def onLine (l : Line) : Event → Bool
  | .gpio_set_function l' _ _ => l' = l
  | .gpio_init l' _ => l' = l
  | .gpio_set_dir l' _ _ => l' = l
  | .gpio_put l' _ _ => l' = l
  | _ => false

/-- Whether the event is a GPIO call on the given pin number. -/
def onPin (p : Nat) : Event → Bool
  | .gpio_set_function _ gpio _ => gpio = p
  | .gpio_init _ gpio => gpio = p
  | .gpio_set_dir _ gpio _ => gpio = p
  | .gpio_put _ gpio _ => gpio = p
  | _ => false

/-- The (CPOL, CPHA) pairs of the bus-format configurations in a trace. -/
def polaritiesOf (evs : List Event) : List (Nat × Nat) :=
  evs.filterMap fun e =>
    match e with
    | .spi_set_format _ _ cpol cpha _ => some (cpol, cpha)
    | _ => none

/-- What is left of an event when the chip-select pin `p` is taken away: a GPIO
call on pin `p` disappears, a bus-format configuration with (CPOL, CPHA) = (0, 0)
becomes one with (1, 1), every other event stays. -/
def sentinelView (p : Nat) (e : Event) : Option Event :=
  if onPin p e then none
  else
    match e with
    | .spi_set_format spi bits cpol cpha order =>
      if cpol = 0 ∧ cpha = 0 then some (.spi_set_format spi bits 1 1 order)
      else some (.spi_set_format spi bits cpol cpha order)
    | e => some e

/-- The relation between what a driver wired with chip-select pin `p` emits
(`evA`) and what the same driver wired without a chip-select line emits (`evB`):
`evB` is `evA` seen through `sentinelView p`, no event of `evB` names the
chip-select line, every bus format in `evA` has (CPOL, CPHA) = (0, 0) and every
bus format in `evB` has (1, 1). -/
def SentinelImage (p : Nat) (evA evB : List Event) : Prop :=
  evB = evA.filterMap (sentinelView p)
  ∧ evB.all (fun e => !onLine .cs e) = true
  ∧ (∀ q ∈ polaritiesOf evA, q = (0, 0))
  ∧ (∀ q ∈ polaritiesOf evB, q = (1, 1))

/-! ## Structural lemmas -/

theorem emitted_append (s t : Driver) (evs : List Event) (h : t.trace = s.trace ++ evs) :
    emitted s t = evs := by
  simp [emitted, h]

theorem st7789_cmd_eq (s : Driver) (cmd : Nat) (data : List Nat) :
    st7789_cmd s cmd data =
      { s with st7789_data_mode := false
               trace := s.trace ++ frame s.st7789_cfg cmd data } := by
  by_cases hcs : s.st7789_cfg.gpio_cs > -1 <;> by_cases hd : data.length = 0 <;>
    simp [st7789_cmd, emit, frame, hcs, hd]

theorem st7789_ramwr_eq (s : Driver) :
    st7789_ramwr s = { s with trace := s.trace ++ ramwrEvents s.st7789_cfg } := by
  by_cases hcs : s.st7789_cfg.gpio_cs > -1 <;>
    simp [st7789_ramwr, emit, ramwrEvents, hcs]

theorem st7789_caset_eq (s : Driver) (xs xe : Nat) :
    st7789_caset s xs xe =
      { s with st7789_data_mode := false
               trace := s.trace ++ frame s.st7789_cfg 0x2a
                 [u8 (xs >>> 8), u8 (xs &&& 0xff), u8 (xe >>> 8), u8 (xe &&& 0xff)] } := by
  simp [st7789_caset, st7789_cmd_eq]

theorem st7789_raset_eq (s : Driver) (ys ye : Nat) :
    st7789_raset s ys ye =
      { s with st7789_data_mode := false
               trace := s.trace ++ frame s.st7789_cfg 0x2b
                 [u8 (ys >>> 8), u8 (ys &&& 0xff), u8 (ye >>> 8), u8 (ye &&& 0xff)] } := by
  simp [st7789_raset, st7789_cmd_eq]

theorem st7789_set_window_eq (s : Driver) (xs xe ys ye : Nat) :
    st7789_set_window s xs xe ys ye =
      { s with st7789_data_mode := false
               trace := s.trace
                 ++ (frame s.st7789_cfg 0x2a
                      [u8 (xs >>> 8), u8 (xs &&& 0xff), u8 (xe >>> 8), u8 (xe &&& 0xff)]
                    ++ frame s.st7789_cfg 0x2b
                      [u8 (ys >>> 8), u8 (ys &&& 0xff), u8 (ye >>> 8), u8 (ye &&& 0xff)]) } := by
  simp [st7789_set_window, st7789_caset_eq, st7789_raset_eq]

theorem st7789_vertical_scroll_eq (s : Driver) (row : Nat) :
    st7789_vertical_scroll s row =
      { s with st7789_data_mode := false
               trace := s.trace ++ frame s.st7789_cfg 0x37
                 [u8 ((row >>> 8) &&& 0xff), u8 (row &&& 0x00ff)] } := by
  simp [st7789_vertical_scroll, st7789_cmd_eq]

theorem st7789_init_eq (s : Driver) (cfg : st7789_config) (width height rotation m : Nat)
    (hm : madctl_rotation[rotation]? = some m) :
    st7789_init s cfg width height rotation =
      some { st7789_cfg := cfg
             st7789_width := width
             st7789_height := height
             st7789_data_mode := false
             trace := s.trace ++ initEvents cfg width height m } := by
  by_cases hcs : cfg.gpio_cs > -1 <;>
    simp [st7789_init, st7789_caset_eq, st7789_raset_eq, st7789_cmd_eq, emit, initEvents,
      initHead, initPins, hcs, hm]

theorem st7789_write_cold (s : Driver) (data : List Nat) (len : Nat)
    (h : s.st7789_data_mode = false) :
    st7789_write s data len =
      { s with st7789_data_mode := true
               trace := s.trace ++ (ramwrEvents s.st7789_cfg
                 ++ [format16 s.st7789_cfg,
                     .spi_write16_blocking s.st7789_cfg.spi data (len / 2)]) } := by
  by_cases hcs : s.st7789_cfg.gpio_cs > -1 <;>
    simp [st7789_write, st7789_ramwr_eq, emit, format16, h, hcs]

theorem st7789_write_hot (s : Driver) (data : List Nat) (len : Nat)
    (h : s.st7789_data_mode = true) :
    st7789_write s data len =
      { s with trace := s.trace ++ [.spi_write16_blocking s.st7789_cfg.spi data (len / 2)] } := by
  simp [st7789_write, emit, h]

theorem foldl_step_frame (cfg : st7789_config) (cmd : Nat) (data : List Nat) (w : Wire) :
    (frame cfg cmd data).foldl Wire.step w = ⟨true, (cmd, data) :: w.cmds⟩ := by
  by_cases hcs : cfg.gpio_cs > -1 <;> by_cases hd : data.length = 0 <;>
    simp [frame, Wire.step, hcs, hd]
  all_goals simp_all

theorem foldl_step_ramwr (cfg : st7789_config) (w : Wire) :
    (ramwrEvents cfg).foldl Wire.step w = ⟨true, (0x2c, []) :: w.cmds⟩ := by
  by_cases hcs : cfg.gpio_cs > -1 <;> simp [ramwrEvents, Wire.step, hcs]

theorem u8_shift (x : Nat) (h : x < 65536) : u8 (x >>> 8) = x >>> 8 := by
  unfold u8
  rw [Nat.shiftRight_eq_div_pow]
  omega

theorem u8_mask (x : Nat) : u8 (x &&& 0xff) = x &&& 0xff := by
  unfold u8
  rw [show (0xff : Nat) = 2 ^ 8 - 1 from rfl, Nat.and_pow_two_sub_one_eq_mod]
  omega

theorem be_split (x : Nat) : 256 * (x >>> 8) + (x &&& 0xff) = x := by
  rw [Nat.shiftRight_eq_div_pow, show (0xff : Nat) = 2 ^ 8 - 1 from rfl,
    Nat.and_pow_two_sub_one_eq_mod]
  omega

/-! ## Command framing -/

/-- C8: for every opcode, payload and configuration (every prior state), the
events `st7789_cmd` emits are exactly: bus format 8 bits; 1us delay; chip-select
low (only when a chip-select pin is configured); data/command low; 1us delay;
write of the single opcode byte; then, exactly when the payload length is
non-zero, 1us delay, data/command high, 1us delay, write of the payload bytes;
then 1us delay; chip-select high (only when configured); data/command high; 1us
delay.  With the empty payload nothing stands between the opcode write and the
closing bracket. -/
theorem st7789_cmd_trace (s : Driver) (cmd : Nat) (data : List Nat) :
    emitted s (st7789_cmd s cmd data) =
      [Event.spi_set_format s.st7789_cfg.spi 8 (if s.st7789_cfg.gpio_cs > -1 then 0 else 1)
          (if s.st7789_cfg.gpio_cs > -1 then 0 else 1) .SPI_MSB_FIRST,
        .sleep_us 1]
      ++ (if s.st7789_cfg.gpio_cs > -1 then
            [Event.gpio_put .cs s.st7789_cfg.gpio_cs.toNat false] else [])
      ++ [Event.gpio_put .dc s.st7789_cfg.gpio_dc false,
          .sleep_us 1,
          .spi_write_blocking s.st7789_cfg.spi [cmd]]
      ++ (if data.length ≠ 0 then
            [Event.sleep_us 1,
              .gpio_put .dc s.st7789_cfg.gpio_dc true,
              .sleep_us 1,
              .spi_write_blocking s.st7789_cfg.spi data]
          else [])
      ++ [Event.sleep_us 1]
      ++ (if s.st7789_cfg.gpio_cs > -1 then
            [Event.gpio_put .cs s.st7789_cfg.gpio_cs.toNat true] else [])
      ++ [Event.gpio_put .dc s.st7789_cfg.gpio_dc true,
          .sleep_us 1]
    ∧ emitted s (st7789_cmd s cmd []) =
      [Event.spi_set_format s.st7789_cfg.spi 8 (if s.st7789_cfg.gpio_cs > -1 then 0 else 1)
          (if s.st7789_cfg.gpio_cs > -1 then 0 else 1) .SPI_MSB_FIRST,
        .sleep_us 1]
      ++ (if s.st7789_cfg.gpio_cs > -1 then
            [Event.gpio_put .cs s.st7789_cfg.gpio_cs.toNat false] else [])
      ++ [Event.gpio_put .dc s.st7789_cfg.gpio_dc false,
          .sleep_us 1,
          .spi_write_blocking s.st7789_cfg.spi [cmd],
          .sleep_us 1]
      ++ (if s.st7789_cfg.gpio_cs > -1 then
            [Event.gpio_put .cs s.st7789_cfg.gpio_cs.toNat true] else [])
      ++ [Event.gpio_put .dc s.st7789_cfg.gpio_dc true,
          .sleep_us 1] := by
  constructor
  · apply emitted_append
    rw [st7789_cmd_eq]
    simp [frame]
  · apply emitted_append
    rw [st7789_cmd_eq]
    simp [frame]

/-- C6: for 16-bit `xs` and `xe`, `st7789_caset` delivers exactly one command,
opcode 0x2A with the four payload bytes `[xs>>8, xs&0xFF, xe>>8, xe&0xFF]`, in
one command bracket; read back as big-endian 16-bit values the payload is
`[xs, xe]`; for `(10, 50)` the payload is `[0x00, 0x0A, 0x00, 0x32]`. -/
theorem st7789_caset_payload (s : Driver) (xs xe : Nat) (hxs : xs < 65536) (hxe : xe < 65536) :
    commandsOf (emitted s (st7789_caset s xs xe)) =
        [(0x2A, [xs >>> 8, xs &&& 0xFF, xe >>> 8, xe &&& 0xFF])]
    ∧ emitted s (st7789_caset s xs xe) =
        frame s.st7789_cfg 0x2A [xs >>> 8, xs &&& 0xFF, xe >>> 8, xe &&& 0xFF]
    ∧ be16 [xs >>> 8, xs &&& 0xFF, xe >>> 8, xe &&& 0xFF] = [xs, xe]
    ∧ commandsOf (emitted s (st7789_caset s 10 50)) = [(0x2A, [0x00, 0x0A, 0x00, 0x32])] := by
  have e : ∀ a b : Nat, a < 65536 → b < 65536 →
      emitted s (st7789_caset s a b) =
        frame s.st7789_cfg 0x2A [a >>> 8, a &&& 0xFF, b >>> 8, b &&& 0xFF] := by
    intro a b ha hb
    apply emitted_append
    rw [st7789_caset_eq, u8_shift a ha, u8_shift b hb, u8_mask, u8_mask]
  refine ⟨?_, e xs xe hxs hxe, ?_, ?_⟩
  · rw [e xs xe hxs hxe, commandsOf, foldl_step_frame]
    rfl
  · simp [be16, be_split]
  · rw [e 10 50 (by decide) (by decide), commandsOf, foldl_step_frame]
    decide

theorem st7789_caset_payload_witness :
    10 < 65536 ∧ 50 < 65536
    ∧ commandsOf (emitted Driver.boot (st7789_caset Driver.boot 10 50)) =
        [(0x2A, [10 >>> 8, 10 &&& 0xFF, 50 >>> 8, 50 &&& 0xFF])]
    ∧ emitted Driver.boot (st7789_caset Driver.boot 10 50) =
        frame Driver.boot.st7789_cfg 0x2A [10 >>> 8, 10 &&& 0xFF, 50 >>> 8, 50 &&& 0xFF]
    ∧ be16 [10 >>> 8, 10 &&& 0xFF, 50 >>> 8, 50 &&& 0xFF] = [10, 50]
    ∧ commandsOf (emitted Driver.boot (st7789_caset Driver.boot 10 50)) =
        [(0x2A, [0x00, 0x0A, 0x00, 0x32])] :=
  ⟨by decide, by decide, st7789_caset_payload Driver.boot 10 50 (by decide) (by decide)⟩

/-- C7: for a 16-bit `row`, `st7789_vertical_scroll` delivers exactly one
command, opcode 0x37 with the two payload bytes `[row>>8, row&0xFF]`, in one
command bracket, and `256 * payload[0] + payload[1] = row`; for `row = 300` the
payload is `[0x01, 0x2C]`. -/
theorem st7789_vertical_scroll_payload (s : Driver) (row : Nat) (hrow : row < 65536) :
    commandsOf (emitted s (st7789_vertical_scroll s row)) =
        [(0x37, [row >>> 8, row &&& 0xFF])]
    ∧ emitted s (st7789_vertical_scroll s row) =
        frame s.st7789_cfg 0x37 [row >>> 8, row &&& 0xFF]
    ∧ 256 * (row >>> 8) + (row &&& 0xFF) = row
    ∧ commandsOf (emitted s (st7789_vertical_scroll s 300)) = [(0x37, [0x01, 0x2C])] := by
  have e : ∀ a : Nat, a < 65536 →
      emitted s (st7789_vertical_scroll s a) =
        frame s.st7789_cfg 0x37 [a >>> 8, a &&& 0xFF] := by
    intro a ha
    apply emitted_append
    have h1 : u8 ((a >>> 8) &&& 0xff) = a >>> 8 := by
      rw [u8_mask, show (0xff : Nat) = 2 ^ 8 - 1 from rfl, Nat.and_pow_two_sub_one_eq_mod,
        Nat.shiftRight_eq_div_pow]
      omega
    rw [st7789_vertical_scroll_eq, h1, show (0x00ff : Nat) = 0xff from rfl, u8_mask]
  refine ⟨?_, e row hrow, be_split row, ?_⟩
  · rw [e row hrow, commandsOf, foldl_step_frame]
    rfl
  · rw [e 300 (by decide), commandsOf, foldl_step_frame]
    decide

theorem st7789_vertical_scroll_payload_witness :
    300 < 65536
    ∧ commandsOf (emitted Driver.boot (st7789_vertical_scroll Driver.boot 300)) =
        [(0x37, [300 >>> 8, 300 &&& 0xFF])]
    ∧ emitted Driver.boot (st7789_vertical_scroll Driver.boot 300) =
        frame Driver.boot.st7789_cfg 0x37 [300 >>> 8, 300 &&& 0xFF]
    ∧ 256 * (300 >>> 8) + (300 &&& 0xFF) = 300
    ∧ commandsOf (emitted Driver.boot (st7789_vertical_scroll Driver.boot 300)) =
        [(0x37, [0x01, 0x2C])] :=
  ⟨by decide, st7789_vertical_scroll_payload Driver.boot 300 (by decide)⟩

/-! ## Window and streaming -/

theorem commandsOf_frame_append (cfg : st7789_config) (cmd : Nat) (data : List Nat)
    (w : Wire) (rest : List Event) :
    (frame cfg cmd data ++ rest).foldl Wire.step w =
      rest.foldl Wire.step ⟨true, (cmd, data) :: w.cmds⟩ := by
  rw [List.foldl_append, foldl_step_frame]

theorem formatsOf_frame (cfg : st7789_config) (cmd : Nat) (data : List Nat) :
    formatsOf (frame cfg cmd data) = [8] := by
  by_cases hcs : cfg.gpio_cs > -1 <;> by_cases hd : data.length = 0 <;>
    simp [formatsOf, frame, hcs, hd]

theorem formatsOf_ramwr (cfg : st7789_config) : formatsOf (ramwrEvents cfg) = [] := by
  by_cases hcs : cfg.gpio_cs > -1 <;> simp [formatsOf, ramwrEvents, hcs]

theorem transfers16_frame (cfg : st7789_config) (cmd : Nat) (data : List Nat) :
    transfers16 (frame cfg cmd data) = [] := by
  by_cases hcs : cfg.gpio_cs > -1 <;> by_cases hd : data.length = 0 <;>
    simp [transfers16, frame, hcs, hd]

theorem transfers16_ramwr (cfg : st7789_config) : transfers16 (ramwrEvents cfg) = [] := by
  by_cases hcs : cfg.gpio_cs > -1 <;> simp [transfers16, ramwrEvents, hcs]

theorem opensStream_of_cold (t : Driver) (buf : List Nat) (len : Nat)
    (h : t.st7789_data_mode = false) : OpensStream t buf len := by
  have e : emitted t (st7789_write t buf len) =
      ramwrEvents t.st7789_cfg
      ++ [format16 t.st7789_cfg, .spi_write16_blocking t.st7789_cfg.spi buf (len / 2)] := by
    apply emitted_append
    rw [st7789_write_cold t buf len h]
  refine ⟨?_, ?_, e⟩
  · rw [e, commandsOf, List.foldl_append, foldl_step_ramwr]
    simp [Wire.step, format16]
  · rw [e, formatsOf, List.filterMap_append]
    have := formatsOf_ramwr t.st7789_cfg
    rw [formatsOf] at this
    rw [this]
    simp [format16]

/-- C10: for 16-bit arguments and every prior driver state, `st7789_set_window`
delivers exactly two commands, 0x2A with payload `[xs>>8, xs&0xFF, xe>>8,
xe&0xFF]` and then 0x2B with payload `[ys>>8, ys&0xFF, ye>>8, ye&0xFF]`, as two
command brackets that depend only on the stored configuration; whatever window
was set before, the same events are emitted, and two calls with the same
arguments deliver both commands both times. -/
theorem st7789_set_window_commands (s : Driver) (xs xe ys ye : Nat)
    (hxs : xs < 65536) (hxe : xe < 65536) (hys : ys < 65536) (hye : ye < 65536) :
    commandsOf (emitted s (st7789_set_window s xs xe ys ye)) =
        [(0x2A, [xs >>> 8, xs &&& 0xFF, xe >>> 8, xe &&& 0xFF]),
         (0x2B, [ys >>> 8, ys &&& 0xFF, ye >>> 8, ye &&& 0xFF])]
    ∧ emitted s (st7789_set_window s xs xe ys ye) =
        frame s.st7789_cfg 0x2A [xs >>> 8, xs &&& 0xFF, xe >>> 8, xe &&& 0xFF]
        ++ frame s.st7789_cfg 0x2B [ys >>> 8, ys &&& 0xFF, ye >>> 8, ye &&& 0xFF]
    ∧ (∀ xs0 xe0 ys0 ye0 : Nat,
        emitted (st7789_set_window s xs0 xe0 ys0 ye0)
            (st7789_set_window (st7789_set_window s xs0 xe0 ys0 ye0) xs xe ys ye) =
          emitted s (st7789_set_window s xs xe ys ye))
    ∧ commandsOf (emitted s
          (st7789_set_window (st7789_set_window s xs xe ys ye) xs xe ys ye)) =
        [(0x2A, [xs >>> 8, xs &&& 0xFF, xe >>> 8, xe &&& 0xFF]),
         (0x2B, [ys >>> 8, ys &&& 0xFF, ye >>> 8, ye &&& 0xFF]),
         (0x2A, [xs >>> 8, xs &&& 0xFF, xe >>> 8, xe &&& 0xFF]),
         (0x2B, [ys >>> 8, ys &&& 0xFF, ye >>> 8, ye &&& 0xFF])] := by
  have e : ∀ u : Driver, emitted u (st7789_set_window u xs xe ys ye) =
      frame u.st7789_cfg 0x2A [xs >>> 8, xs &&& 0xFF, xe >>> 8, xe &&& 0xFF]
      ++ frame u.st7789_cfg 0x2B [ys >>> 8, ys &&& 0xFF, ye >>> 8, ye &&& 0xFF] := by
    intro u
    apply emitted_append
    rw [st7789_set_window_eq, u8_shift xs hxs, u8_shift xe hxe, u8_shift ys hys,
      u8_shift ye hye, u8_mask, u8_mask, u8_mask, u8_mask]
  refine ⟨?_, e s, ?_, ?_⟩
  · rw [e s, commandsOf, commandsOf_frame_append, foldl_step_frame]
    rfl
  · intro xs0 xe0 ys0 ye0
    rw [e, e, st7789_set_window_eq]
  · have e2 : emitted s (st7789_set_window (st7789_set_window s xs xe ys ye) xs xe ys ye) =
        frame s.st7789_cfg 0x2A [xs >>> 8, xs &&& 0xFF, xe >>> 8, xe &&& 0xFF]
        ++ (frame s.st7789_cfg 0x2B [ys >>> 8, ys &&& 0xFF, ye >>> 8, ye &&& 0xFF]
        ++ (frame s.st7789_cfg 0x2A [xs >>> 8, xs &&& 0xFF, xe >>> 8, xe &&& 0xFF]
        ++ frame s.st7789_cfg 0x2B [ys >>> 8, ys &&& 0xFF, ye >>> 8, ye &&& 0xFF])) := by
      apply emitted_append
      rw [st7789_set_window_eq, st7789_set_window_eq, u8_shift xs hxs, u8_shift xe hxe,
        u8_shift ys hys, u8_shift ye hye, u8_mask, u8_mask, u8_mask, u8_mask]
      simp
    rw [e2, commandsOf, commandsOf_frame_append, commandsOf_frame_append,
      commandsOf_frame_append, foldl_step_frame]
    rfl

theorem st7789_set_window_commands_witness :
    10 < 65536 ∧ 50 < 65536 ∧ 300 < 65536 ∧ 319 < 65536
    ∧ commandsOf (emitted Driver.boot (st7789_set_window Driver.boot 10 50 300 319)) =
        [(0x2A, [0x00, 0x0A, 0x00, 0x32]), (0x2B, [0x01, 0x2C, 0x01, 0x3F])] :=
  ⟨by decide, by decide, by decide, by decide,
    (st7789_set_window_commands Driver.boot 10 50 300 319
      (by decide) (by decide) (by decide) (by decide)).1⟩

theorem writeAll_hot (bufs : List (List Nat × Nat)) (s : Driver)
    (h : s.st7789_data_mode = true) :
    writeAll s bufs =
      { s with trace := s.trace
          ++ bufs.map fun b => Event.spi_write16_blocking s.st7789_cfg.spi b.1 (b.2 / 2) } := by
  induction bufs generalizing s with
  | nil => simp [writeAll]
  | cons b rest ih =>
    have step : writeAll s (b :: rest) = writeAll (st7789_write s b.1 b.2) rest := rfl
    rw [step, ih _ (by rw [st7789_write_hot s b.1 b.2 h]; exact h), st7789_write_hot s b.1 b.2 h]
    simp

theorem writeAll_cold (first : List Nat × Nat) (rest : List (List Nat × Nat)) (s : Driver)
    (h : s.st7789_data_mode = false) :
    emitted s (writeAll s (first :: rest)) =
      ramwrEvents s.st7789_cfg ++ [format16 s.st7789_cfg]
      ++ (first :: rest).map fun b =>
          Event.spi_write16_blocking s.st7789_cfg.spi b.1 (b.2 / 2) := by
  apply emitted_append
  have step : writeAll s (first :: rest) = writeAll (st7789_write s first.1 first.2) rest := rfl
  rw [step, writeAll_hot rest _ (by rw [st7789_write_cold s first.1 first.2 h]),
    st7789_write_cold s first.1 first.2 h]
  simp

theorem transfers16_map (spi : Nat) (bufs : List (List Nat × Nat)) :
    transfers16 (bufs.map fun b => Event.spi_write16_blocking spi b.1 (b.2 / 2)) =
      bufs.map fun b => (b.1, b.2 / 2) := by
  induction bufs with
  | nil => rfl
  | cons b rest ih =>
    simp only [transfers16] at ih
    simp [transfers16, ih]

theorem formatsOf_map (spi : Nat) (bufs : List (List Nat × Nat)) :
    formatsOf (bufs.map fun b => Event.spi_write16_blocking spi b.1 (b.2 / 2)) = [] := by
  induction bufs with
  | nil => rfl
  | cons b rest ih =>
    simp only [formatsOf] at ih
    simp [formatsOf, ih]

theorem foldl_step_map (spi : Nat) (bufs : List (List Nat × Nat)) (w : Wire) :
    (bufs.map fun b => Event.spi_write16_blocking spi b.1 (b.2 / 2)).foldl Wire.step w = w := by
  induction bufs with
  | nil => rfl
  | cons b rest ih => simpa [Wire.step] using ih

/-- C3: whatever the opcode, the payload (the empty one included) and the prior
state (Streaming included), `st7789_cmd` leaves the mode cache at Command
(`st7789_data_mode = false`); and the `st7789_write` that comes next after a
`st7789_cmd`, a `st7789_set_window`, a `st7789_vertical_scroll` or a
`st7789_init` (which returns whenever the rotation indexes the table) sends the
0x2C opcode, then reconfigures the bus to 16 bits, then streams. -/
theorem st7789_cmd_rearms (s : Driver) (cmd : Nat) (data : List Nat)
    (xs xe ys ye row : Nat) (config : st7789_config) (width height rotation : Nat)
    (buf : List Nat) (len : Nat) :
    (st7789_cmd s cmd data).st7789_data_mode = false
    ∧ (st7789_cmd s cmd []).st7789_data_mode = false
    ∧ (st7789_cmd { s with st7789_data_mode := true } cmd data).st7789_data_mode = false
    ∧ OpensStream (st7789_cmd s cmd data) buf len
    ∧ OpensStream (st7789_set_window s xs xe ys ye) buf len
    ∧ OpensStream (st7789_vertical_scroll s row) buf len
    ∧ (rotation < madctl_rotation.length →
        ∃ t, st7789_init s config width height rotation = some t ∧ OpensStream t buf len) := by
  refine ⟨?_, ?_, ?_, ?_, ?_, ?_, ?_⟩
  · rw [st7789_cmd_eq]
  · rw [st7789_cmd_eq]
  · rw [st7789_cmd_eq]
  · exact opensStream_of_cold _ _ _ (by rw [st7789_cmd_eq])
  · exact opensStream_of_cold _ _ _ (by rw [st7789_set_window_eq])
  · exact opensStream_of_cold _ _ _ (by rw [st7789_vertical_scroll_eq])
  · intro hrot
    obtain ⟨m, hm⟩ : ∃ m, madctl_rotation[rotation]? = some m :=
      ⟨madctl_rotation[rotation], List.getElem?_eq_getElem hrot⟩
    exact ⟨_, st7789_init_eq s config width height rotation m hm,
      opensStream_of_cold _ _ _ rfl⟩

theorem st7789_cmd_rearms_witness :
    0 < madctl_rotation.length
    ∧ ∃ t, st7789_init Driver.boot ⟨0, 19, 18, 17, 20, 21, 22⟩ 240 320 0 = some t
        ∧ OpensStream t [0x12, 0x34] 2 :=
  ⟨by decide,
    (st7789_cmd_rearms Driver.boot 0x37 [] 0 0 0 0 0 ⟨0, 19, 18, 17, 20, 21, 22⟩ 240 320 0
      [0x12, 0x34] 2).2.2.2.2.2.2 (by decide)⟩

/-- C2: a `st7789_write` that directly follows another `st7789_write` emits only
its single 16-bit transfer of `lb / 2` words (no opcode, no bus-format
configuration, no GPIO change, no delay); and for a non-empty list of buffers
written one after the other right after a command, the chip receives 0x2C once,
the bus is reconfigured once (to 16 bits), both by the first write, and there is
one 16-bit transfer per buffer, in order.  The same trace is emitted from any
state whose mode cache is Command. -/
theorem st7789_write_cached (s : Driver) (a : List Nat) (la : Nat) (b : List Nat) (lb : Nat)
    (cmd : Nat) (data : List Nat) (first : List Nat × Nat) (rest : List (List Nat × Nat)) :
    emitted (st7789_write s a la) (st7789_write (st7789_write s a la) b lb) =
        [Event.spi_write16_blocking s.st7789_cfg.spi b (lb / 2)]
    ∧ emitted (st7789_cmd s cmd data) (writeAll (st7789_cmd s cmd data) (first :: rest)) =
        ramwrEvents s.st7789_cfg ++ [format16 s.st7789_cfg]
        ++ (first :: rest).map
            (fun p => Event.spi_write16_blocking s.st7789_cfg.spi p.1 (p.2 / 2))
    ∧ commandsOf (emitted (st7789_cmd s cmd data)
        (writeAll (st7789_cmd s cmd data) (first :: rest))) = [(0x2C, [])]
    ∧ formatsOf (emitted (st7789_cmd s cmd data)
        (writeAll (st7789_cmd s cmd data) (first :: rest))) = [16]
    ∧ transfers16 (emitted (st7789_cmd s cmd data)
        (writeAll (st7789_cmd s cmd data) (first :: rest))) =
          (first :: rest).map (fun p => (p.1, p.2 / 2))
    ∧ OpensStream (st7789_cmd s cmd data) first.1 first.2
    ∧ (s.st7789_data_mode = false →
        emitted s (writeAll s (first :: rest)) =
          ramwrEvents s.st7789_cfg ++ [format16 s.st7789_cfg]
          ++ (first :: rest).map
              (fun p => Event.spi_write16_blocking s.st7789_cfg.spi p.1 (p.2 / 2))) := by
  have hc : (st7789_cmd s cmd data).st7789_data_mode = false := by rw [st7789_cmd_eq]
  have hcfg : (st7789_cmd s cmd data).st7789_cfg = s.st7789_cfg := by rw [st7789_cmd_eq]
  have e := writeAll_cold first rest (st7789_cmd s cmd data) hc
  rw [hcfg] at e
  refine ⟨?_, e, ?_, ?_, ?_, opensStream_of_cold _ _ _ hc, writeAll_cold first rest s⟩
  · have hot : (st7789_write s a la).st7789_data_mode = true := by
      cases h : s.st7789_data_mode
      · rw [st7789_write_cold s a la h]
      · rw [st7789_write_hot s a la h]; exact h
    have hcfg2 : (st7789_write s a la).st7789_cfg = s.st7789_cfg := by
      cases h : s.st7789_data_mode
      · rw [st7789_write_cold s a la h]
      · rw [st7789_write_hot s a la h]
    apply emitted_append
    rw [st7789_write_hot _ b lb hot, hcfg2]
  · rw [e, commandsOf, List.foldl_append, List.foldl_append, foldl_step_ramwr, foldl_step_map]
    simp [Wire.step, format16]
  · rw [e, formatsOf, List.filterMap_append, List.filterMap_append]
    have h1 := formatsOf_ramwr s.st7789_cfg
    have h2 := formatsOf_map s.st7789_cfg.spi (first :: rest)
    rw [formatsOf] at h1 h2
    rw [h1, h2]
    simp [format16]
  · rw [e, transfers16, List.filterMap_append, List.filterMap_append]
    have h1 := transfers16_ramwr s.st7789_cfg
    have h2 := transfers16_map s.st7789_cfg.spi (first :: rest)
    rw [transfers16] at h1 h2
    rw [h1, h2]
    simp [format16]

theorem st7789_write_cached_witness :
    Driver.boot.st7789_data_mode = false
    ∧ emitted Driver.boot (writeAll Driver.boot [([1, 2, 3, 4], 4), ([5, 6], 2)]) =
        ramwrEvents Driver.boot.st7789_cfg ++ [format16 Driver.boot.st7789_cfg]
        ++ [([1, 2, 3, 4], 4), ([5, 6], 2)].map
            (fun p => Event.spi_write16_blocking Driver.boot.st7789_cfg.spi p.1 (p.2 / 2)) :=
  ⟨rfl, (st7789_write_cached Driver.boot [] 0 [] 0 0 [] ([1, 2, 3, 4], 4) [([5, 6], 2)]).2.2.2.2.2.2
    rfl⟩

theorem window_write_emitted (s : Driver) (xs xe ys ye : Nat) (data : List Nat) (len : Nat) :
    emitted s (st7789_write (st7789_set_window s xs xe ys ye) data len) =
      frame s.st7789_cfg 0x2a
        [u8 (xs >>> 8), u8 (xs &&& 0xff), u8 (xe >>> 8), u8 (xe &&& 0xff)]
      ++ (frame s.st7789_cfg 0x2b
        [u8 (ys >>> 8), u8 (ys &&& 0xff), u8 (ye >>> 8), u8 (ye &&& 0xff)]
      ++ (ramwrEvents s.st7789_cfg
      ++ [format16 s.st7789_cfg, .spi_write16_blocking s.st7789_cfg.spi data (len / 2)])) := by
  apply emitted_append
  rw [st7789_write_cold _ data len (by rw [st7789_set_window_eq]), st7789_set_window_eq]
  simp

/-- C4: for every window with `xs ≤ xe < width` and `ys ≤ ye < height` (the
stored geometry) and from every driver state, hence from every state reachable
after initialisation, `st7789_set_window` followed by one `st7789_write` of
`W*H*2` bytes, `W = xe-xs+1`, `H = ye-ys+1`, delivers the opcodes 0x2A, 0x2B,
0x2C, so 0x2C exactly once; configures the bus format for 8, 8 and then 16 bits,
so 16 bits exactly once; and makes exactly one 16-bit transfer, of `W*H`
words. -/
theorem st7789_window_then_write (s : Driver) (xs xe ys ye : Nat) (data : List Nat)
    (_hx : xs ≤ xe) (_hxe : xe < s.st7789_width) (_hy : ys ≤ ye)
    (_hye : ye < s.st7789_height) :
    (opcodesOf (emitted s (st7789_write (st7789_set_window s xs xe ys ye) data
        ((xe - xs + 1) * (ye - ys + 1) * 2)))).count 0x2C = 1
    ∧ (formatsOf (emitted s (st7789_write (st7789_set_window s xs xe ys ye) data
        ((xe - xs + 1) * (ye - ys + 1) * 2)))).count 16 = 1
    ∧ transfers16 (emitted s (st7789_write (st7789_set_window s xs xe ys ye) data
        ((xe - xs + 1) * (ye - ys + 1) * 2))) = [(data, (xe - xs + 1) * (ye - ys + 1))]
    ∧ opcodesOf (emitted s (st7789_write (st7789_set_window s xs xe ys ye) data
        ((xe - xs + 1) * (ye - ys + 1) * 2))) = [0x2A, 0x2B, 0x2C]
    ∧ formatsOf (emitted s (st7789_write (st7789_set_window s xs xe ys ye) data
        ((xe - xs + 1) * (ye - ys + 1) * 2))) = [8, 8, 16] := by
  have hop : opcodesOf (emitted s (st7789_write (st7789_set_window s xs xe ys ye) data
      ((xe - xs + 1) * (ye - ys + 1) * 2))) = [0x2A, 0x2B, 0x2C] := by
    rw [window_write_emitted, opcodesOf, commandsOf, commandsOf_frame_append,
      commandsOf_frame_append, List.foldl_append, foldl_step_ramwr]
    simp [Wire.step, format16]
  have hfm : formatsOf (emitted s (st7789_write (st7789_set_window s xs xe ys ye) data
      ((xe - xs + 1) * (ye - ys + 1) * 2))) = [8, 8, 16] := by
    have h1 := formatsOf_ramwr s.st7789_cfg
    have h2 := fun c d => formatsOf_frame s.st7789_cfg c d
    rw [formatsOf] at h1
    simp only [formatsOf] at h2
    rw [window_write_emitted, formatsOf, List.filterMap_append, List.filterMap_append,
      List.filterMap_append, h1, h2, h2]
    simp [format16]
  refine ⟨by rw [hop]; decide, by rw [hfm]; decide, ?_, hop, hfm⟩
  have h1 := transfers16_ramwr s.st7789_cfg
  have h2 := fun c d => transfers16_frame s.st7789_cfg c d
  rw [transfers16] at h1
  simp only [transfers16] at h2
  rw [window_write_emitted, transfers16, List.filterMap_append, List.filterMap_append,
    List.filterMap_append, h1, h2, h2]
  simp [format16]

theorem st7789_window_then_write_witness :
    10 ≤ 50 ∧ 50 < 240 ∧ 300 ≤ 319 ∧ 319 < 320
    ∧ (opcodesOf (emitted ⟨⟨0, 19, 18, 17, 20, 21, 22⟩, 240, 320, true, []⟩
        (st7789_write
          (st7789_set_window ⟨⟨0, 19, 18, 17, 20, 21, 22⟩, 240, 320, true, []⟩ 10 50 300 319)
          [] ((50 - 10 + 1) * (319 - 300 + 1) * 2)))).count 0x2C = 1 :=
  ⟨by decide, by decide, by decide, by decide,
    (st7789_window_then_write ⟨⟨0, 19, 18, 17, 20, 21, 22⟩, 240, 320, true, []⟩ 10 50 300 319 []
      (by decide) (by decide) (by decide) (by decide)).1⟩

/-- C5 (what the code does with an odd length): `st7789_write` has no result
through which a condition could be signalled and does not look at the parity of
`len`; for odd `len` it makes one 16-bit transfer of `(len - 1) / 2` words, the
whole words of the buffer, leaves the last byte unsent, and ends in Streaming
mode like any other write. -/
theorem st7789_write_odd_truncates (s : Driver) (data : List Nat) (len : Nat)
    (hodd : len % 2 = 1) :
    transfers16 (emitted s (st7789_write s data len)) = [(data, (len - 1) / 2)]
    ∧ 2 * ((len - 1) / 2) + 1 = len
    ∧ (st7789_write s data len).st7789_data_mode = true
    ∧ st7789_write s data len = st7789_write s data (len - 1) := by
  have hl : len / 2 = (len - 1) / 2 := by omega
  refine ⟨?_, by omega, ?_, ?_⟩
  · cases h : s.st7789_data_mode
    · have h1 := transfers16_ramwr s.st7789_cfg
      rw [transfers16] at h1
      rw [emitted_append _ _ _ (by rw [st7789_write_cold s data len h]), transfers16,
        List.filterMap_append, h1, hl]
      simp [format16]
    · rw [emitted_append _ _ _ (by rw [st7789_write_hot s data len h]), hl]
      simp [transfers16]
  · cases h : s.st7789_data_mode
    · rw [st7789_write_cold s data len h]
    · rw [st7789_write_hot s data len h]; exact h
  · cases h : s.st7789_data_mode
    · rw [st7789_write_cold s data len h, st7789_write_cold s data (len - 1) h]
      have : len / 2 = (len - 1) / 2 := hl
      rw [this]
    · rw [st7789_write_hot s data len h, st7789_write_hot s data (len - 1) h]
      have : len / 2 = (len - 1) / 2 := hl
      rw [this]

theorem st7789_write_odd_truncates_witness :
    3 % 2 = 1
    ∧ transfers16 (emitted Driver.boot (st7789_write Driver.boot [0x12, 0x34, 0x56] 3)) =
        [([0x12, 0x34, 0x56], (3 - 1) / 2)] :=
  ⟨by decide, (st7789_write_odd_truncates Driver.boot [0x12, 0x34, 0x56] 3 (by decide)).1⟩

/-- C5 (counterexample): a 3-byte buffer is not rejected; one 16-bit word of it
is transferred, and the resulting state and trace are those of the 2-byte write
of the same buffer. -/
theorem st7789_write_three_bytes :
    transfers16 (emitted Driver.boot (st7789_write Driver.boot [0x12, 0x34, 0x56] 3)) =
        [([0x12, 0x34, 0x56], 1)]
    ∧ transfers16 (emitted Driver.boot (st7789_write Driver.boot [0x12, 0x34, 0x56] 3)) ≠ []
    ∧ st7789_write Driver.boot [0x12, 0x34, 0x56] 3 =
        st7789_write Driver.boot [0x12, 0x34, 0x56] 2 := by
  decide

/-! ## Initialisation -/

theorem foldl_step_initPins (cfg : st7789_config) (w : Wire) :
    (initPins cfg).foldl Wire.step w = w := by
  by_cases hcs : cfg.gpio_cs > -1 <;> simp [initPins, Wire.step, hcs]

theorem commandsOf_initEvents (cfg : st7789_config) (width height m : Nat) :
    commandsOf (initEvents cfg width height m) =
      [(0x01, []), (0x11, []), (0x3a, [0x55]), (0x36, [m]),
        (0x2a, [u8 (0 >>> 8), u8 (0 &&& 0xff),
          u8 (u16 ((width : Int) - 1) >>> 8), u8 (u16 ((width : Int) - 1) &&& 0xff)]),
        (0x2b, [u8 (0 >>> 8), u8 (0 &&& 0xff),
          u8 (u16 ((height : Int) - 1) >>> 8), u8 (u16 ((height : Int) - 1) &&& 0xff)]),
        (0x21, []), (0x13, []), (0x29, [])] := by
  by_cases hcs : cfg.gpio_cs > -1 <;>
    simp [commandsOf, initEvents, initHead, List.foldl_append, foldl_step_initPins, foldl_step_frame,
      Wire.step, hcs]

theorem msWaits_frame (cfg : st7789_config) (cmd : Nat) (data : List Nat) :
    msWaits (frame cfg cmd data) = [] := by
  by_cases hcs : cfg.gpio_cs > -1 <;> by_cases hd : data.length = 0 <;>
    simp [msWaits, frame, hcs, hd]

theorem msWaits_initPins (cfg : st7789_config) : msWaits (initPins cfg) = [] := by
  by_cases hcs : cfg.gpio_cs > -1 <;> simp [msWaits, initPins, hcs]

theorem countP_bl_frame (cfg : st7789_config) (cmd : Nat) (data : List Nat) :
    (frame cfg cmd data).countP (drives .bl true) = 0 := by
  by_cases hcs : cfg.gpio_cs > -1 <;> by_cases hd : data.length = 0 <;>
    simp [frame, drives, hcs, hd]

theorem countP_bl_initPins (cfg : st7789_config) :
    (initPins cfg).countP (drives .bl true) = 0 := by
  by_cases hcs : cfg.gpio_cs > -1 <;> simp [initPins, drives, hcs]

theorem busWrites_frame (cfg : st7789_config) (cmd : Nat) (data : List Nat) :
    (frame cfg cmd data).filter isBusWrite =
      Event.spi_write_blocking cfg.spi [cmd]
        :: (if data.length ≠ 0 then [Event.spi_write_blocking cfg.spi data] else []) := by
  by_cases hcs : cfg.gpio_cs > -1 <;> by_cases hd : data.length = 0 <;>
    simp [frame, isBusWrite, hcs, hd]

theorem busWrites_initPins (cfg : st7789_config) :
    (initPins cfg).filter isBusWrite = [] := by
  by_cases hcs : cfg.gpio_cs > -1 <;> simp [initPins, isBusWrite, hcs]

theorem emitted_cmd (u : Driver) (cmd : Nat) (data : List Nat) :
    emitted u (st7789_cmd u cmd data) = frame u.st7789_cfg cmd data := by
  apply emitted_append
  rw [st7789_cmd_eq]

theorem u16_pred (n : Nat) (h1 : 1 ≤ n) (h : n < 65536) : u16 ((n : Int) - 1) = n - 1 := by
  unfold u16
  omega

/-- C1: for every configuration and prior state, every 16-bit `width ≥ 1` and
`height ≥ 1` and every rotation that indexes the table, `st7789_init` returns
and delivers to the chip exactly the commands 0x01, 0x11, 0x3A [0x55],
0x36 [madctl_rotation[rotation]], 0x2A [0, 0, (width-1)>>8, (width-1)&0xFF],
0x2B [0, 0, (height-1)>>8, (height-1)&0xFF], 0x21, 0x13, 0x29, in this order
(its bus writes are these thirteen and no others); the backlight line is driven
high exactly once, as the very last event, after the bracket of 0x29, which
holds the last bus write, and a 10 ms wait.  For 240 x 320 the payloads of 0x2A
and 0x2B are [0, 0, 0, 239] and [0, 0, 1, 63]. -/
theorem st7789_init_commands (s : Driver) (config : st7789_config)
    (width height rotation : Nat) (hw1 : 1 ≤ width) (hw : width < 65536)
    (hh1 : 1 ≤ height) (hh : height < 65536) (hrot : rotation < madctl_rotation.length) :
    (∃ t m, st7789_init s config width height rotation = some t
      ∧ madctl_rotation[rotation]? = some m
      ∧ commandsOf (emitted s t) =
          [(0x01, []), (0x11, []), (0x3A, [0x55]), (0x36, [m]),
            (0x2A, [0, 0, (width - 1) >>> 8, (width - 1) &&& 0xFF]),
            (0x2B, [0, 0, (height - 1) >>> 8, (height - 1) &&& 0xFF]),
            (0x21, []), (0x13, []), (0x29, [])]
      ∧ (emitted s t).filter isBusWrite =
          [Event.spi_write_blocking config.spi [0x01],
            Event.spi_write_blocking config.spi [0x11],
            Event.spi_write_blocking config.spi [0x3A],
            Event.spi_write_blocking config.spi [0x55],
            Event.spi_write_blocking config.spi [0x36],
            Event.spi_write_blocking config.spi [m],
            Event.spi_write_blocking config.spi [0x2A],
            Event.spi_write_blocking config.spi [0, 0, (width - 1) >>> 8, (width - 1) &&& 0xFF],
            Event.spi_write_blocking config.spi [0x2B],
            Event.spi_write_blocking config.spi [0, 0, (height - 1) >>> 8, (height - 1) &&& 0xFF],
            Event.spi_write_blocking config.spi [0x21],
            Event.spi_write_blocking config.spi [0x13],
            Event.spi_write_blocking config.spi [0x29]]
      ∧ (emitted s t).countP (drives .bl true) = 1
      ∧ ∃ body, emitted s t =
            body ++ emitted t (st7789_cmd t 0x29 [])
              ++ [Event.sleep_ms 10, Event.gpio_put .bl config.gpio_bl true]
          ∧ (body ++ emitted t (st7789_cmd t 0x29 [])).countP (drives .bl true) = 0)
    ∧ (∃ t m, st7789_init s config 240 320 rotation = some t
      ∧ madctl_rotation[rotation]? = some m
      ∧ commandsOf (emitted s t) =
          [(0x01, []), (0x11, []), (0x3A, [0x55]), (0x36, [m]),
            (0x2A, [0, 0, 0, 239]), (0x2B, [0, 0, 1, 63]),
            (0x21, []), (0x13, []), (0x29, [])]) := by
  obtain ⟨m, hm⟩ : ∃ m, madctl_rotation[rotation]? = some m :=
    ⟨madctl_rotation[rotation], List.getElem?_eq_getElem hrot⟩
  have em : ∀ w h : Nat, emitted s
      { st7789_cfg := config, st7789_width := w, st7789_height := h,
        st7789_data_mode := false, trace := s.trace ++ initEvents config w h m } =
      initEvents config w h m := fun w h => emitted_append _ _ _ rfl
  have z1 : u8 (0 >>> 8) = 0 := by decide
  have z2 : u8 (0 &&& 0xff) = 0 := by decide
  constructor
  · refine ⟨_, m, st7789_init_eq s config width height rotation m hm, hm, ?_, ?_, ?_, ?_⟩
    · rw [em, commandsOf_initEvents, u16_pred width hw1 hw, u16_pred height hh1 hh,
        u8_shift (width - 1) (by omega), u8_shift (height - 1) (by omega),
        u8_mask (width - 1), u8_mask (height - 1), z1, z2]
    · rw [em, initEvents, initHead, u16_pred width hw1 hw, u16_pred height hh1 hh,
        u8_shift (width - 1) (by omega), u8_shift (height - 1) (by omega),
        u8_mask (width - 1), u8_mask (height - 1), z1, z2]
      by_cases hcs : config.gpio_cs > -1 <;>
        simp [List.filter_append, busWrites_frame, busWrites_initPins, hcs, isBusWrite]
    · rw [em]
      by_cases hcs : config.gpio_cs > -1 <;>
        simp [initEvents, initHead, List.countP_append, countP_bl_frame, countP_bl_initPins,
          hcs, drives]
    · rw [emitted_cmd]
      refine ⟨initHead config width height m, ?_, ?_⟩
      · rw [em, initEvents]
        simp only [List.append_assoc, List.cons_append, List.nil_append]
      · by_cases hcs : config.gpio_cs > -1 <;>
          simp [initHead, List.countP_append, countP_bl_frame, countP_bl_initPins, hcs, drives]
  · refine ⟨_, m, st7789_init_eq s config 240 320 rotation m hm, hm, ?_⟩
    rw [em, commandsOf_initEvents]
    rfl

theorem st7789_init_commands_witness :
    1 ≤ 240 ∧ 240 < 65536 ∧ 1 ≤ 320 ∧ 320 < 65536 ∧ 1 < madctl_rotation.length
    ∧ ∃ t m, st7789_init Driver.boot ⟨0, 19, 18, 17, 20, 21, 22⟩ 240 320 1 = some t
      ∧ madctl_rotation[1]? = some m
      ∧ commandsOf (emitted Driver.boot t) =
          [(0x01, []), (0x11, []), (0x3A, [0x55]), (0x36, [m]),
            (0x2A, [0, 0, 0, 239]), (0x2B, [0, 0, 1, 63]),
            (0x21, []), (0x13, []), (0x29, [])] :=
  ⟨by decide, by decide, by decide, by decide, by decide,
    (st7789_init_commands Driver.boot ⟨0, 19, 18, 17, 20, 21, 22⟩ 240 320 1
      (by decide) (by decide) (by decide) (by decide) (by decide)).2⟩

/-- C9: when the rotation indexes the table, `st7789_init` returns and its
millisecond waits are exactly [100, 150, 50, 10, 10, 10, 10]: after the pin
set-up the lines are put idle (chip-select high if present, data/command high,
reset high), then 100 ms, the bracket of 0x01, 150 ms, the bracket of 0x11,
50 ms, the bracket of 0x3A, 10 ms, the brackets of 0x36, 0x2A, 0x2B and 0x21
with no millisecond wait between them, 10 ms, the bracket of 0x13, 10 ms, the
bracket of 0x29, 10 ms, backlight high.  Neither the pin set-up nor a command
bracket (`frame`, which is what `st7789_cmd` emits) contains a millisecond
wait. -/
theorem st7789_init_waits (s : Driver) (config : st7789_config)
    (width height rotation : Nat) (hrot : rotation < madctl_rotation.length) :
    ∃ t m pa pb, st7789_init s config width height rotation = some t
      ∧ madctl_rotation[rotation]? = some m
      ∧ msWaits (emitted s t) = [100, 150, 50, 10, 10, 10, 10]
      ∧ emitted s t =
          initPins config
          ++ (if config.gpio_cs > -1 then
                [Event.gpio_put .cs config.gpio_cs.toNat true] else [])
          ++ [Event.gpio_put .dc config.gpio_dc true,
              Event.gpio_put .rst config.gpio_rst true,
              Event.sleep_ms 100]
          ++ frame config 0x01 [] ++ [Event.sleep_ms 150]
          ++ frame config 0x11 [] ++ [Event.sleep_ms 50]
          ++ frame config 0x3A [0x55] ++ [Event.sleep_ms 10]
          ++ frame config 0x36 [m]
          ++ frame config 0x2A pa
          ++ frame config 0x2B pb
          ++ frame config 0x21 [] ++ [Event.sleep_ms 10]
          ++ frame config 0x13 [] ++ [Event.sleep_ms 10]
          ++ frame config 0x29 [] ++ [Event.sleep_ms 10]
          ++ [Event.gpio_put .bl config.gpio_bl true]
      ∧ msWaits (initPins config) = []
      ∧ (∀ cmd data, msWaits (frame config cmd data) = [])
      ∧ ∀ cmd data, emitted t (st7789_cmd t cmd data) = frame config cmd data := by
  obtain ⟨m, hm⟩ : ∃ m, madctl_rotation[rotation]? = some m :=
    ⟨madctl_rotation[rotation], List.getElem?_eq_getElem hrot⟩
  have em : emitted s
      { st7789_cfg := config, st7789_width := width, st7789_height := height,
        st7789_data_mode := false, trace := s.trace ++ initEvents config width height m } =
      initEvents config width height m := emitted_append _ _ _ rfl
  refine ⟨_, m,
    [u8 (0 >>> 8), u8 (0 &&& 0xff),
      u8 (u16 ((width : Int) - 1) >>> 8), u8 (u16 ((width : Int) - 1) &&& 0xff)],
    [u8 (0 >>> 8), u8 (0 &&& 0xff),
      u8 (u16 ((height : Int) - 1) >>> 8), u8 (u16 ((height : Int) - 1) &&& 0xff)],
    st7789_init_eq s config width height rotation m hm, hm, ?_, ?_,
    msWaits_initPins config, msWaits_frame config, fun cmd data => emitted_cmd _ cmd data⟩
  · have hf := msWaits_frame config
    have hp := msWaits_initPins config
    simp only [msWaits] at hf hp
    rw [em]
    by_cases hcs : config.gpio_cs > -1 <;>
      simp [msWaits, initEvents, initHead, List.filterMap_append, hf, hp, hcs]
  · rw [em, initEvents, initHead]

theorem st7789_init_waits_witness :
    0 < madctl_rotation.length
    ∧ ∃ t m pa pb, st7789_init Driver.boot ⟨0, 19, 18, -1, 20, 21, 22⟩ 240 320 0 = some t
      ∧ madctl_rotation[0]? = some m
      ∧ msWaits (emitted Driver.boot t) = [100, 150, 50, 10, 10, 10, 10]
      ∧ emitted Driver.boot t =
          initPins ⟨0, 19, 18, -1, 20, 21, 22⟩
          ++ (if (-1 : Int) > -1 then [Event.gpio_put .cs (-1 : Int).toNat true] else [])
          ++ [Event.gpio_put .dc 20 true, Event.gpio_put .rst 21 true, Event.sleep_ms 100]
          ++ frame ⟨0, 19, 18, -1, 20, 21, 22⟩ 0x01 [] ++ [Event.sleep_ms 150]
          ++ frame ⟨0, 19, 18, -1, 20, 21, 22⟩ 0x11 [] ++ [Event.sleep_ms 50]
          ++ frame ⟨0, 19, 18, -1, 20, 21, 22⟩ 0x3A [0x55] ++ [Event.sleep_ms 10]
          ++ frame ⟨0, 19, 18, -1, 20, 21, 22⟩ 0x36 [m]
          ++ frame ⟨0, 19, 18, -1, 20, 21, 22⟩ 0x2A pa
          ++ frame ⟨0, 19, 18, -1, 20, 21, 22⟩ 0x2B pb
          ++ frame ⟨0, 19, 18, -1, 20, 21, 22⟩ 0x21 [] ++ [Event.sleep_ms 10]
          ++ frame ⟨0, 19, 18, -1, 20, 21, 22⟩ 0x13 [] ++ [Event.sleep_ms 10]
          ++ frame ⟨0, 19, 18, -1, 20, 21, 22⟩ 0x29 [] ++ [Event.sleep_ms 10]
          ++ [Event.gpio_put .bl 22 true]
      ∧ msWaits (initPins ⟨0, 19, 18, -1, 20, 21, 22⟩) = []
      ∧ (∀ cmd data, msWaits (frame ⟨0, 19, 18, -1, 20, 21, 22⟩ cmd data) = [])
      ∧ ∀ cmd data,
          emitted t (st7789_cmd t cmd data) = frame ⟨0, 19, 18, -1, 20, 21, 22⟩ cmd data :=
  ⟨by decide, st7789_init_waits Driver.boot ⟨0, 19, 18, -1, 20, 21, 22⟩ 240 320 0 (by decide)⟩

/-! ## Streaming preamble and chip-select -/

theorem emitted_write_cold (s : Driver) (data : List Nat) (len : Nat)
    (h : s.st7789_data_mode = false) :
    emitted s (st7789_write s data len) =
      ramwrEvents s.st7789_cfg
      ++ [format16 s.st7789_cfg, .spi_write16_blocking s.st7789_cfg.spi data (len / 2)] := by
  apply emitted_append
  rw [st7789_write_cold s data len h]

/-- C12: when the mode cache is Command and a chip-select pin is configured,
`st7789_write(data, len)` emits exactly: 1us delay; chip-select low;
data/command low; 1us delay; write of the byte 0x2C; 1us delay; chip-select low
again; data/command high; 1us delay; bus format 16 bits; transfer of `len / 2`
16-bit words; and the mode cache ends as Streaming.  Chip-select is driven low
exactly twice and never high, so the call leaves it low. -/
theorem st7789_write_preamble (s : Driver) (data : List Nat) (len : Nat)
    (hmode : s.st7789_data_mode = false) (hcs : s.st7789_cfg.gpio_cs > -1) :
    emitted s (st7789_write s data len) =
      [Event.sleep_us 1,
        .gpio_put .cs s.st7789_cfg.gpio_cs.toNat false,
        .gpio_put .dc s.st7789_cfg.gpio_dc false,
        .sleep_us 1,
        .spi_write_blocking s.st7789_cfg.spi [0x2C],
        .sleep_us 1,
        .gpio_put .cs s.st7789_cfg.gpio_cs.toNat false,
        .gpio_put .dc s.st7789_cfg.gpio_dc true,
        .sleep_us 1,
        .spi_set_format s.st7789_cfg.spi 16 0 0 .SPI_MSB_FIRST,
        .spi_write16_blocking s.st7789_cfg.spi data (len / 2)]
    ∧ (st7789_write s data len).st7789_data_mode = true
    ∧ (emitted s (st7789_write s data len)).countP (drives .cs false) = 2
    ∧ (emitted s (st7789_write s data len)).countP (drives .cs true) = 0
    ∧ levelOf .cs (emitted s (st7789_write s data len)) = some false := by
  have e : emitted s (st7789_write s data len) =
      [Event.sleep_us 1,
        .gpio_put .cs s.st7789_cfg.gpio_cs.toNat false,
        .gpio_put .dc s.st7789_cfg.gpio_dc false,
        .sleep_us 1,
        .spi_write_blocking s.st7789_cfg.spi [0x2C],
        .sleep_us 1,
        .gpio_put .cs s.st7789_cfg.gpio_cs.toNat false,
        .gpio_put .dc s.st7789_cfg.gpio_dc true,
        .sleep_us 1,
        .spi_set_format s.st7789_cfg.spi 16 0 0 .SPI_MSB_FIRST,
        .spi_write16_blocking s.st7789_cfg.spi data (len / 2)] := by
    rw [emitted_write_cold s data len hmode]
    simp [ramwrEvents, format16, hcs]
  refine ⟨e, ?_, ?_, ?_, ?_⟩
  · rw [st7789_write_cold s data len hmode]
  · rw [e]; simp [drives]
  · rw [e]; simp [drives]
  · rw [e]; simp [levelOf]

theorem st7789_write_preamble_witness :
    (⟨⟨0, 19, 18, 17, 20, 21, 22⟩, 240, 320, false, []⟩ : Driver).st7789_data_mode = false
    ∧ (⟨⟨0, 19, 18, 17, 20, 21, 22⟩, 240, 320, false, []⟩ : Driver).st7789_cfg.gpio_cs > -1
    ∧ emitted ⟨⟨0, 19, 18, 17, 20, 21, 22⟩, 240, 320, false, []⟩
        (st7789_write ⟨⟨0, 19, 18, 17, 20, 21, 22⟩, 240, 320, false, []⟩ [0x12, 0x34] 2) =
      [Event.sleep_us 1,
        .gpio_put .cs 17 false,
        .gpio_put .dc 20 false,
        .sleep_us 1,
        .spi_write_blocking 0 [0x2C],
        .sleep_us 1,
        .gpio_put .cs 17 false,
        .gpio_put .dc 20 true,
        .sleep_us 1,
        .spi_set_format 0 16 0 0 .SPI_MSB_FIRST,
        .spi_write16_blocking 0 [0x12, 0x34] (2 / 2)] :=
  ⟨rfl, by decide,
    (st7789_write_preamble ⟨⟨0, 19, 18, 17, 20, 21, 22⟩, 240, 320, false, []⟩ [0x12, 0x34] 2
      rfl (by decide)).1⟩

/-! ## Segments of `st7789_init`, bus width -/

theorem st7789_init_factors (s : Driver) (config : st7789_config)
    (width height rotation : Nat) :
    st7789_init s config width height rotation =
      (madctl_rotation[rotation]?).map
        (fun m => st7789_init_tail (st7789_init_head s config width height) width height m) := by
  cases h : madctl_rotation[rotation]? <;>
    simp [st7789_init, st7789_init_head, st7789_init_setup, st7789_init_tail, h]

theorem st7789_init_setup_eq (s : Driver) (config : st7789_config) (width height : Nat) :
    st7789_init_setup s config width height =
      { st7789_cfg := config
        st7789_width := width
        st7789_height := height
        st7789_data_mode := s.st7789_data_mode
        trace := s.trace ++ (initPins config
          ++ (if config.gpio_cs > -1 then [.gpio_put .cs config.gpio_cs.toNat true] else [])
          ++ [.gpio_put .dc config.gpio_dc true, .gpio_put .rst config.gpio_rst true,
              .sleep_ms 100]) } := by
  by_cases hcs : config.gpio_cs > -1 <;>
    simp [st7789_init_setup, emit, initPins, hcs]

theorem bus_frame (cfg : st7789_config) (cmd : Nat) (data : List Nat) (b : Bus) :
    (frame cfg cmd data).foldl Bus.step b = ⟨some 8, true, some 8 :: b.opcodeWidths⟩ := by
  by_cases hcs : cfg.gpio_cs > -1 <;> by_cases hd : data.length = 0 <;>
    simp [frame, Bus.step, hcs, hd]

theorem bus_ramwr (cfg : st7789_config) (b : Bus) :
    (ramwrEvents cfg).foldl Bus.step b = ⟨b.width, true, b.width :: b.opcodeWidths⟩ := by
  by_cases hcs : cfg.gpio_cs > -1 <;> simp [ramwrEvents, Bus.step, hcs]

theorem bus_initPins (cfg : st7789_config) (b : Bus) :
    (initPins cfg).foldl Bus.step b = ⟨some 8, b.dc, b.opcodeWidths⟩ := by
  by_cases hcs : cfg.gpio_cs > -1 <;> simp [initPins, Bus.step, hcs]

theorem bus_initEvents (cfg : st7789_config) (width height m : Nat) (b : Bus) :
    (initEvents cfg width height m).foldl Bus.step b =
      ⟨some 8, true, List.replicate 9 (some 8) ++ b.opcodeWidths⟩ := by
  by_cases hcs : cfg.gpio_cs > -1 <;>
    simp [initEvents, initHead, List.foldl_append, bus_frame, bus_initPins, Bus.step, hcs,
      List.replicate]

theorem emitted_init (s : Driver) (cfg : st7789_config) (width height m : Nat) :
    emitted s
      { st7789_cfg := cfg, st7789_width := width, st7789_height := height,
        st7789_data_mode := false, trace := s.trace ++ initEvents cfg width height m } =
      initEvents cfg width height m :=
  emitted_append _ _ _ rfl

theorem lookup_of_lt (rotation : Nat) (h : rotation < madctl_rotation.length) :
    ∃ m, madctl_rotation[rotation]? = some m :=
  ⟨madctl_rotation[rotation], List.getElem?_eq_getElem h⟩

/-- C14: when the rotation indexes the table, `st7789_init` returns from every
prior state, and from two prior states `s1`, `s2` (and from `s1` with the mode
cache forced to Streaming) it emits the same events and leaves the same stored
configuration, width, height and mode cache: the arguments, and Command.  The
bus is left configured for 8-bit words and the next `st7789_write` sends 0x2C.
The statements of `st7789_init` before its first command leave the mode cache
as it was; it is the first `st7789_cmd` that resets it. -/
theorem st7789_init_resets (s1 s2 : Driver) (config : st7789_config)
    (width height rotation : Nat) (buf : List Nat) (len : Nat)
    (hrot : rotation < madctl_rotation.length) :
    ∃ t1 t2 t3, st7789_init s1 config width height rotation = some t1
      ∧ st7789_init s2 config width height rotation = some t2
      ∧ st7789_init { s1 with st7789_data_mode := true } config width height rotation = some t3
      ∧ emitted s1 t1 = emitted s2 t2
      ∧ emitted { s1 with st7789_data_mode := true } t3 = emitted s1 t1
      ∧ t1.st7789_cfg = config ∧ t2.st7789_cfg = config ∧ t3.st7789_cfg = config
      ∧ t1.st7789_width = width ∧ t2.st7789_width = width ∧ t3.st7789_width = width
      ∧ t1.st7789_height = height ∧ t2.st7789_height = height ∧ t3.st7789_height = height
      ∧ t1.st7789_data_mode = false ∧ t2.st7789_data_mode = false
      ∧ t3.st7789_data_mode = false
      ∧ busWidth t1.trace = some 8 ∧ busWidth t2.trace = some 8 ∧ busWidth t3.trace = some 8
      ∧ OpensStream t1 buf len ∧ OpensStream t2 buf len ∧ OpensStream t3 buf len
      ∧ (st7789_init_setup s1 config width height).st7789_data_mode = s1.st7789_data_mode
      ∧ (st7789_init_setup { s1 with st7789_data_mode := true } config width height
          ).st7789_data_mode = true
      ∧ (st7789_cmd (st7789_init_setup { s1 with st7789_data_mode := true } config width height)
          0x01 []).st7789_data_mode = false := by
  obtain ⟨m, hm⟩ := lookup_of_lt rotation hrot
  have bw : ∀ s : Driver, busWidth (s.trace ++ initEvents config width height m) = some 8 := by
    intro s
    rw [busWidth, List.foldl_append, bus_initEvents]
  refine ⟨_, _, _, st7789_init_eq s1 config width height rotation m hm,
    st7789_init_eq s2 config width height rotation m hm,
    st7789_init_eq _ config width height rotation m hm, ?_, ?_, rfl, rfl, rfl, rfl, rfl, rfl,
    rfl, rfl, rfl, rfl, rfl, rfl, bw s1, bw s2, bw _, opensStream_of_cold _ _ _ rfl,
    opensStream_of_cold _ _ _ rfl, opensStream_of_cold _ _ _ rfl, ?_, ?_, ?_⟩
  · rw [emitted_init, emitted_init]
  · rw [emitted_init, emitted_init]
  · rw [st7789_init_setup_eq]
  · rw [st7789_init_setup_eq]
  · rw [st7789_cmd_eq]

theorem st7789_init_resets_witness :
    1 < madctl_rotation.length
    ∧ ∃ t1 t2 t3,
      st7789_init Driver.boot ⟨0, 19, 18, 17, 20, 21, 22⟩ 240 320 1 = some t1
      ∧ st7789_init (st7789_write Driver.boot [1, 2] 2) ⟨0, 19, 18, 17, 20, 21, 22⟩ 240 320 1 =
          some t2
      ∧ st7789_init { Driver.boot with st7789_data_mode := true }
          ⟨0, 19, 18, 17, 20, 21, 22⟩ 240 320 1 = some t3
      ∧ emitted Driver.boot t1 = emitted (st7789_write Driver.boot [1, 2] 2) t2 :=
  ⟨by decide,
    match st7789_init_resets Driver.boot (st7789_write Driver.boot [1, 2] 2)
        ⟨0, 19, 18, 17, 20, 21, 22⟩ 240 320 1 [] 0 (by decide) with
    | ⟨t1, t2, t3, h1, h2, h3, h4, _⟩ => ⟨t1, t2, t3, h1, h2, h3, h4⟩⟩

/-- C15: the index `rotation` is inside `madctl_rotation` exactly for 0 and 1,
where the table holds 0x00 and 0x60 and `st7789_init` sends them as the payload
of 0x36; for every other value the read is outside the table.  `st7789_init`
is its rotation-free first part, then the table read, then the rest: nothing
before the read depends on `rotation`, and whether it returns is decided by the
read alone. -/
theorem madctl_rotation_bounds (s : Driver) (config : st7789_config)
    (width height rotation : Nat) :
    (rotation < madctl_rotation.length ↔ rotation = 0 ∨ rotation = 1)
    ∧ madctl_rotation[0]? = some 0x00
    ∧ madctl_rotation[1]? = some 0x60
    ∧ (∃ t, st7789_init s config width height 0 = some t
        ∧ (commandsOf (emitted s t))[3]? = some (0x36, [0x00]))
    ∧ (∃ t, st7789_init s config width height 1 = some t
        ∧ (commandsOf (emitted s t))[3]? = some (0x36, [0x60]))
    ∧ (2 ≤ rotation →
        madctl_rotation[rotation]? = none
        ∧ st7789_init s config width height rotation = none)
    ∧ st7789_init s config width height rotation =
        (madctl_rotation[rotation]?).map
          (fun m => st7789_init_tail (st7789_init_head s config width height) width height m)
    ∧ (st7789_init s config width height rotation).isSome =
        (madctl_rotation[rotation]?).isSome := by
  refine ⟨?_, rfl, rfl, ?_, ?_, ?_, st7789_init_factors s config width height rotation, ?_⟩
  · simp only [madctl_rotation, List.length_cons, List.length_nil]
    omega
  · refine ⟨_, st7789_init_eq s config width height 0 0x00 rfl, ?_⟩
    rw [emitted_init, commandsOf_initEvents]
    rfl
  · refine ⟨_, st7789_init_eq s config width height 1 0x60 rfl, ?_⟩
    rw [emitted_init, commandsOf_initEvents]
    rfl
  · intro h2
    have hnone : madctl_rotation[rotation]? = none := by
      apply List.getElem?_eq_none
      simp only [madctl_rotation, List.length_cons, List.length_nil]
      omega
    refine ⟨hnone, ?_⟩
    rw [st7789_init_factors, hnone]
    rfl
  · rw [st7789_init_factors]
    cases madctl_rotation[rotation]? <;> rfl

theorem madctl_rotation_bounds_witness :
    2 ≤ 2
    ∧ madctl_rotation[2]? = none
    ∧ st7789_init Driver.boot ⟨0, 19, 18, 17, 20, 21, 22⟩ 240 320 2 = none :=
  ⟨by decide,
    (madctl_rotation_bounds Driver.boot ⟨0, 19, 18, 17, 20, 21, 22⟩ 240 320 2).2.2.2.2.2.1
      (by decide)⟩

/-! ## The mode cache tracks the bus width -/

theorem st7789_init_some (s t : Driver) (cfg : st7789_config) (width height rotation : Nat)
    (h : st7789_init s cfg width height rotation = some t) :
    ∃ m, madctl_rotation[rotation]? = some m
      ∧ t = { st7789_cfg := cfg, st7789_width := width, st7789_height := height,
              st7789_data_mode := false,
              trace := s.trace ++ initEvents cfg width height m } := by
  cases hm : madctl_rotation[rotation]? with
  | none =>
    rw [st7789_init_factors, hm] at h
    exact absurd h (by simp)
  | some m =>
    rw [st7789_init_eq s cfg width height rotation m hm] at h
    exact ⟨m, rfl, (Option.some.inj h).symm⟩

theorem bus_applyOp (t u : Driver) (op : Op) (h : applyOp t op = some u) :
    ∃ evs, u.trace = t.trace ++ evs
      ∧ ∀ b : Bus, b.width = some (if t.st7789_data_mode then 16 else 8) →
          ∃ new, (evs.foldl Bus.step b).opcodeWidths = new ++ b.opcodeWidths
            ∧ (∀ x ∈ new, x = some 8)
            ∧ (evs.foldl Bus.step b).width = some (if u.st7789_data_mode then 16 else 8) := by
  cases op with
  | write data len =>
    have hu : u = st7789_write t data len := (Option.some.inj h).symm
    subst hu
    cases hmode : t.st7789_data_mode
    · refine ⟨_, by rw [st7789_write_cold t data len hmode], ?_⟩
      intro b hb
      simp only [Bool.false_eq_true, if_false, if_true] at hb
      refine ⟨[some 8], ?_, by simp, ?_⟩
      · rw [List.foldl_append, bus_ramwr, hb]
        simp [Bus.step, format16]
      · rw [List.foldl_append, bus_ramwr, st7789_write_cold t data len hmode]
        simp [Bus.step, format16]
    · refine ⟨_, by rw [st7789_write_hot t data len hmode], ?_⟩
      intro b hb
      simp only [Bool.false_eq_true, if_false, if_true] at hb
      refine ⟨[], by simp [Bus.step], by simp, ?_⟩
      rw [st7789_write_hot t data len hmode]
      simpa [Bus.step, hmode] using hb
  | set_window xs xe ys ye =>
    have hu : u = st7789_set_window t xs xe ys ye := (Option.some.inj h).symm
    subst hu
    refine ⟨_, by rw [st7789_set_window_eq], ?_⟩
    intro b _
    refine ⟨[some 8, some 8], ?_, by simp, ?_⟩
    · rw [List.foldl_append, bus_frame, bus_frame]
      rfl
    · rw [List.foldl_append, bus_frame, bus_frame, st7789_set_window_eq]
      rfl
  | vertical_scroll row =>
    have hu : u = st7789_vertical_scroll t row := (Option.some.inj h).symm
    subst hu
    refine ⟨_, by rw [st7789_vertical_scroll_eq], ?_⟩
    intro b _
    refine ⟨[some 8], ?_, by simp, ?_⟩
    · rw [bus_frame]
      rfl
    · rw [bus_frame, st7789_vertical_scroll_eq]
      rfl
  | init config width height rotation =>
    obtain ⟨m, _, hu⟩ := st7789_init_some t u config width height rotation h
    subst hu
    refine ⟨_, rfl, ?_⟩
    intro b _
    refine ⟨List.replicate 9 (some 8), ?_, ?_, ?_⟩
    · rw [bus_initEvents]
    · intro x hx
      exact List.eq_of_mem_replicate hx
    · rw [bus_initEvents]
      rfl

theorem bus_runOps (ops : List Op) (t u : Driver) (h : runOps t ops = some u) :
    ∃ evs, u.trace = t.trace ++ evs
      ∧ ∀ b : Bus, b.width = some (if t.st7789_data_mode then 16 else 8) →
          ∃ new, (evs.foldl Bus.step b).opcodeWidths = new ++ b.opcodeWidths
            ∧ (∀ x ∈ new, x = some 8)
            ∧ (evs.foldl Bus.step b).width = some (if u.st7789_data_mode then 16 else 8) := by
  induction ops generalizing t with
  | nil =>
    have hu : u = t := (Option.some.inj h).symm
    subst hu
    exact ⟨[], by simp, fun b hb => ⟨[], by simp, by simp, by simpa using hb⟩⟩
  | cons op ops ih =>
    rw [runOps] at h
    cases hop : applyOp t op with
    | none => rw [hop] at h; exact absurd h (by simp)
    | some v =>
      rw [hop] at h
      obtain ⟨e1, ht1, hb1⟩ := bus_applyOp t v op hop
      obtain ⟨e2, ht2, hb2⟩ := ih v h
      refine ⟨e1 ++ e2, by rw [ht2, ht1, List.append_assoc], ?_⟩
      intro b hb
      obtain ⟨n1, hn1, ha1, hw1⟩ := hb1 b hb
      obtain ⟨n2, hn2, ha2, hw2⟩ := hb2 _ hw1
      refine ⟨n2 ++ n1, ?_, ?_, ?_⟩
      · rw [List.foldl_append, hn2, hn1, List.append_assoc]
      · intro x hx
        rcases List.mem_append.mp hx with hx | hx
        · exact ha2 x hx
        · exact ha1 x hx
      · rw [List.foldl_append]
        exact hw2

theorem st7789_cmd_opcode_eq (s : Driver) (cmd : Nat) :
    st7789_cmd_opcode s cmd =
      { s with st7789_data_mode := false
               trace := s.trace ++
                 ([.spi_set_format s.st7789_cfg.spi 8 (if s.st7789_cfg.gpio_cs > -1 then 0 else 1)
                     (if s.st7789_cfg.gpio_cs > -1 then 0 else 1) .SPI_MSB_FIRST,
                   .sleep_us 1]
                 ++ (if s.st7789_cfg.gpio_cs > -1 then
                       [.gpio_put .cs s.st7789_cfg.gpio_cs.toNat false] else [])
                 ++ [.gpio_put .dc s.st7789_cfg.gpio_dc false, .sleep_us 1])
                 ++ [.spi_write_blocking s.st7789_cfg.spi [cmd]] } := by
  by_cases hcs : s.st7789_cfg.gpio_cs > -1 <;> simp [st7789_cmd_opcode, emit, hcs]

theorem st7789_ramwr_opcode_eq (s : Driver) :
    st7789_ramwr_opcode s =
      { s with trace := s.trace ++
                 ([Event.sleep_us 1]
                 ++ (if s.st7789_cfg.gpio_cs > -1 then
                       [.gpio_put .cs s.st7789_cfg.gpio_cs.toNat false] else [])
                 ++ [.gpio_put .dc s.st7789_cfg.gpio_dc false, .sleep_us 1])
                 ++ [.spi_write_blocking s.st7789_cfg.spi [0x2c]] } := by
  by_cases hcs : s.st7789_cfg.gpio_cs > -1 <;> simp [st7789_ramwr_opcode, emit, hcs]

/-- C11: in every state `s` reached from a returning `st7789_init` by any
sequence of `st7789_write`, `st7789_set_window`, `st7789_vertical_scroll` and
`st7789_init`, the mode cache is Streaming exactly when the bus is configured
for 16-bit words and Command exactly when it is configured for 8-bit words.
Every opcode byte written since that initialisation (at least its nine) was
written with the bus at 8 bits.  At the moment `st7789_cmd` writes its opcode
byte the mode cache is Command and the bus is at 8 bits; `st7789_write` reaches
the 0x2C write of `st7789_ramwr` only with the mode cache at Command, and then
too the bus is at 8 bits and the mode cache still Command; in Streaming mode
`st7789_write` sends no opcode at all. -/
theorem mode_cache_tracks_bus_width (s0 : Driver) (config : st7789_config)
    (width height rotation : Nat) (ops : List Op) (s1 s : Driver)
    (hinit : st7789_init s0 config width height rotation = some s1)
    (hrun : runOps s1 ops = some s) :
    (s.st7789_data_mode = true ↔ busWidth s.trace = some 16)
    ∧ (s.st7789_data_mode = false ↔ busWidth s.trace = some 8)
    ∧ (∀ x ∈ opcodeWidths (emitted s0 s), x = some 8)
    ∧ 9 ≤ (opcodeWidths (emitted s0 s)).length
    ∧ (∀ cmd data,
        (st7789_cmd_opcode s cmd).st7789_data_mode = false
        ∧ busWidth (st7789_cmd_opcode s cmd).trace = some 8
        ∧ (∃ pre, (st7789_cmd_opcode s cmd).trace =
            pre ++ [Event.spi_write_blocking s.st7789_cfg.spi [cmd]])
        ∧ ∃ rest, (st7789_cmd s cmd data).trace = (st7789_cmd_opcode s cmd).trace ++ rest)
    ∧ (s.st7789_data_mode = false →
        (st7789_ramwr_opcode s).st7789_data_mode = false
        ∧ busWidth (st7789_ramwr_opcode s).trace = some 8
        ∧ (∃ pre, (st7789_ramwr_opcode s).trace =
            pre ++ [Event.spi_write_blocking s.st7789_cfg.spi [0x2C]])
        ∧ ∀ data len, ∃ rest,
            (st7789_write s data len).trace = (st7789_ramwr_opcode s).trace ++ rest)
    ∧ (s.st7789_data_mode = true →
        ∀ data len, commandsOf (emitted s (st7789_write s data len)) = []) := by
  obtain ⟨m, _, hs1⟩ := st7789_init_some s0 s1 config width height rotation hinit
  subst hs1
  obtain ⟨evs, htr, hb⟩ := bus_runOps ops _ s hrun
  have htr2 : s.trace = s0.trace ++ (initEvents config width height m ++ evs) := by
    rw [htr, List.append_assoc]
  have key : busWidth s.trace = some (if s.st7789_data_mode then 16 else 8) := by
    obtain ⟨_, _, _, hw⟩ := hb ⟨some 8, true,
      List.replicate 9 (some 8) ++ (s0.trace.foldl Bus.step ⟨none, true, []⟩).opcodeWidths⟩ rfl
    rw [busWidth, htr2, List.foldl_append, List.foldl_append, bus_initEvents]
    exact hw
  obtain ⟨new, hnew, hall, _⟩ := hb ⟨some 8, true, List.replicate 9 (some 8) ++ []⟩ rfl
  have hop : opcodeWidths (emitted s0 s) = (new ++ List.replicate 9 (some 8)).reverse := by
    rw [emitted_append s0 s _ htr2, opcodeWidths, List.foldl_append, bus_initEvents, hnew]
    simp
  refine ⟨?_, ?_, ?_, ?_, ?_, ?_, ?_⟩
  · rw [key]
    cases s.st7789_data_mode <;> simp
  · rw [key]
    cases s.st7789_data_mode <;> simp
  · intro x hx
    rw [hop] at hx
    rcases List.mem_append.mp (List.mem_reverse.mp hx) with hx | hx
    · exact hall x hx
    · exact List.eq_of_mem_replicate hx
  · rw [hop]
    simp
  · intro cmd data
    refine ⟨by rw [st7789_cmd_opcode_eq], ?_, ⟨_, by rw [st7789_cmd_opcode_eq]⟩, ?_⟩
    · rw [st7789_cmd_opcode_eq]
      by_cases hcs : s.st7789_cfg.gpio_cs > -1 <;>
        simp [busWidth, List.foldl_append, Bus.step, hcs]
    · refine ⟨(if data.length ≠ 0 then
          [Event.sleep_us 1, .gpio_put .dc s.st7789_cfg.gpio_dc true, .sleep_us 1,
            .spi_write_blocking s.st7789_cfg.spi data]
        else [])
        ++ [Event.sleep_us 1]
        ++ (if s.st7789_cfg.gpio_cs > -1 then
              [Event.gpio_put .cs s.st7789_cfg.gpio_cs.toNat true] else [])
        ++ [Event.gpio_put .dc s.st7789_cfg.gpio_dc true, .sleep_us 1], ?_⟩
      rw [st7789_cmd_eq, st7789_cmd_opcode_eq]
      simp [frame]
  · intro hmode
    rw [hmode] at key
    refine ⟨by rw [st7789_ramwr_opcode_eq]; exact hmode, ?_,
      ⟨_, by rw [st7789_ramwr_opcode_eq]⟩, ?_⟩
    · rw [st7789_ramwr_opcode_eq]
      rw [busWidth] at key
      by_cases hcs : s.st7789_cfg.gpio_cs > -1 <;>
        simp [busWidth, List.foldl_append, Bus.step, hcs, key]
    · intro data len
      refine ⟨[Event.sleep_us 1]
        ++ (if s.st7789_cfg.gpio_cs > -1 then
              [Event.gpio_put .cs s.st7789_cfg.gpio_cs.toNat false] else [])
        ++ [Event.gpio_put .dc s.st7789_cfg.gpio_dc true, .sleep_us 1,
            format16 s.st7789_cfg,
            .spi_write16_blocking s.st7789_cfg.spi data (len / 2)], ?_⟩
      rw [st7789_write_cold s data len hmode, st7789_ramwr_opcode_eq]
      simp [ramwrEvents]
  · intro hmode data len
    rw [emitted_append _ _ _ (by rw [st7789_write_hot s data len hmode])]
    simp [commandsOf, Wire.step]

theorem mode_cache_tracks_bus_width_witness :
    st7789_init Driver.boot ⟨0, 19, 18, 17, 20, 21, 22⟩ 240 320 0 =
        some ⟨⟨0, 19, 18, 17, 20, 21, 22⟩, 240, 320, false,
          initEvents ⟨0, 19, 18, 17, 20, 21, 22⟩ 240 320 0⟩
    ∧ runOps ⟨⟨0, 19, 18, 17, 20, 21, 22⟩, 240, 320, false,
          initEvents ⟨0, 19, 18, 17, 20, 21, 22⟩ 240 320 0⟩
        [.set_window 0 9 0 9, .write [0x12, 0x34] 2] =
        some (st7789_write (st7789_set_window ⟨⟨0, 19, 18, 17, 20, 21, 22⟩, 240, 320, false,
          initEvents ⟨0, 19, 18, 17, 20, 21, 22⟩ 240 320 0⟩ 0 9 0 9) [0x12, 0x34] 2)
    ∧ ((st7789_write (st7789_set_window ⟨⟨0, 19, 18, 17, 20, 21, 22⟩, 240, 320, false,
          initEvents ⟨0, 19, 18, 17, 20, 21, 22⟩ 240 320 0⟩ 0 9 0 9)
          [0x12, 0x34] 2).st7789_data_mode = true
        ↔ busWidth (st7789_write (st7789_set_window ⟨⟨0, 19, 18, 17, 20, 21, 22⟩, 240, 320,
          false, initEvents ⟨0, 19, 18, 17, 20, 21, 22⟩ 240 320 0⟩ 0 9 0 9)
          [0x12, 0x34] 2).trace = some 16) :=
  ⟨st7789_init_eq Driver.boot ⟨0, 19, 18, 17, 20, 21, 22⟩ 240 320 0 0 rfl, rfl,
    (mode_cache_tracks_bus_width Driver.boot ⟨0, 19, 18, 17, 20, 21, 22⟩ 240 320 0
      [.set_window 0 9 0 9, .write [0x12, 0x34] 2] _ _
      (st7789_init_eq Driver.boot ⟨0, 19, 18, 17, 20, 21, 22⟩ 240 320 0 0 rfl) rfl).1⟩

/-! ## With and without a chip-select line -/

theorem sentinelImage_nil (p : Nat) : SentinelImage p [] [] := by
  simp [SentinelImage, polaritiesOf]

theorem sentinelImage_append (p : Nat) (a1 b1 a2 b2 : List Event)
    (h1 : SentinelImage p a1 b1) (h2 : SentinelImage p a2 b2) :
    SentinelImage p (a1 ++ a2) (b1 ++ b2) := by
  obtain ⟨e1, n1, pa1, pb1⟩ := h1
  obtain ⟨e2, n2, pa2, pb2⟩ := h2
  refine ⟨by rw [List.filterMap_append, e1, e2], ?_, ?_, ?_⟩
  · rw [List.all_append, n1, n2]
    rfl
  · intro q hq
    rw [polaritiesOf, List.filterMap_append] at hq
    rcases List.mem_append.mp hq with hq | hq
    · exact pa1 q hq
    · exact pa2 q hq
  · intro q hq
    rw [polaritiesOf, List.filterMap_append] at hq
    rcases List.mem_append.mp hq with hq | hq
    · exact pb1 q hq
    · exact pb2 q hq

theorem sentinelImage_frame (cfg : st7789_config) (csB : Int) (cmd : Nat) (data : List Nat)
    (hpin : cfg.gpio_cs ≥ 0) (hsent : csB < 0) (hdc : cfg.gpio_dc ≠ cfg.gpio_cs.toNat) :
    SentinelImage cfg.gpio_cs.toNat (frame cfg cmd data)
      (frame { cfg with gpio_cs := csB } cmd data) := by
  have hA : cfg.gpio_cs > -1 := by omega
  have hB : ¬ csB > -1 := by omega
  by_cases hd : data.length = 0 <;>
    simp [SentinelImage, frame, sentinelView, onPin, onLine, polaritiesOf, hA, hB, hd, hdc]

theorem sentinelImage_ramwr (cfg : st7789_config) (csB : Int)
    (hpin : cfg.gpio_cs ≥ 0) (hsent : csB < 0) (hdc : cfg.gpio_dc ≠ cfg.gpio_cs.toNat) :
    SentinelImage cfg.gpio_cs.toNat
      (ramwrEvents cfg
        ++ [format16 cfg])
      (ramwrEvents { cfg with gpio_cs := csB }
        ++ [format16 { cfg with gpio_cs := csB }]) := by
  have hA : cfg.gpio_cs > -1 := by omega
  have hB : ¬ csB > -1 := by omega
  simp [SentinelImage, ramwrEvents, format16, sentinelView, onPin, onLine, polaritiesOf, hA, hB,
    hdc]

theorem sentinelImage_write16 (p spi : Nat) (data : List Nat) (n : Nat) :
    SentinelImage p [Event.spi_write16_blocking spi data n]
      [Event.spi_write16_blocking spi data n] := by
  simp [SentinelImage, sentinelView, onPin, onLine, polaritiesOf]

theorem sentinelImage_initPins (cfg : st7789_config) (csB : Int)
    (hpin : cfg.gpio_cs ≥ 0) (hsent : csB < 0)
    (hdin : cfg.gpio_din ≠ cfg.gpio_cs.toNat) (hclk : cfg.gpio_clk ≠ cfg.gpio_cs.toNat)
    (hdc : cfg.gpio_dc ≠ cfg.gpio_cs.toNat) (hrst : cfg.gpio_rst ≠ cfg.gpio_cs.toNat)
    (hbl : cfg.gpio_bl ≠ cfg.gpio_cs.toNat) :
    SentinelImage cfg.gpio_cs.toNat
      (initPins cfg
        ++ (if cfg.gpio_cs > -1 then [Event.gpio_put .cs cfg.gpio_cs.toNat true] else [])
        ++ [Event.gpio_put .dc cfg.gpio_dc true, Event.gpio_put .rst cfg.gpio_rst true,
            Event.sleep_ms 100])
      (initPins { cfg with gpio_cs := csB }
        ++ (if csB > -1 then [Event.gpio_put .cs csB.toNat true] else [])
        ++ [Event.gpio_put .dc cfg.gpio_dc true, Event.gpio_put .rst cfg.gpio_rst true,
            Event.sleep_ms 100]) := by
  have hA : cfg.gpio_cs > -1 := by omega
  have hB : ¬ csB > -1 := by omega
  simp [SentinelImage, initPins, sentinelView, onPin, onLine, polaritiesOf, hA, hB,
    hdin, hclk, hdc, hrst, hbl]

theorem sentinelImage_single (p : Nat) (e : Event) (h : sentinelView p e = some e)
    (hl : onLine .cs e = false) (hq : polaritiesOf [e] = []) :
    SentinelImage p [e] [e] := by
  refine ⟨by simp [h], by simp [hl], ?_, ?_⟩ <;> rw [hq] <;> intro q hq' <;> cases hq'

theorem sentinelImage_initEvents (cfg : st7789_config) (csB : Int) (width height m : Nat)
    (hpin : cfg.gpio_cs ≥ 0) (hsent : csB < 0)
    (hdin : cfg.gpio_din ≠ cfg.gpio_cs.toNat) (hclk : cfg.gpio_clk ≠ cfg.gpio_cs.toNat)
    (hdc : cfg.gpio_dc ≠ cfg.gpio_cs.toNat) (hrst : cfg.gpio_rst ≠ cfg.gpio_cs.toNat)
    (hbl : cfg.gpio_bl ≠ cfg.gpio_cs.toNat) :
    SentinelImage cfg.gpio_cs.toNat (initEvents cfg width height m)
      (initEvents { cfg with gpio_cs := csB } width height m) := by
  have fr := fun cmd data => sentinelImage_frame cfg csB cmd data hpin hsent hdc
  have ms : ∀ n, SentinelImage cfg.gpio_cs.toNat [Event.sleep_ms n] [Event.sleep_ms n] :=
    fun n => sentinelImage_single _ _ rfl rfl rfl
  have bl : SentinelImage cfg.gpio_cs.toNat [Event.gpio_put .bl cfg.gpio_bl true]
      [Event.gpio_put .bl cfg.gpio_bl true] :=
    sentinelImage_single _ _ (by simp [sentinelView, onPin, hbl]) rfl rfl
  have pins := sentinelImage_initPins cfg csB hpin hsent hdin hclk hdc hrst hbl
  unfold initEvents initHead
  exact sentinelImage_append _ _ _ _ _
    (sentinelImage_append _ _ _ _ _
      (sentinelImage_append _ _ _ _ _
        (sentinelImage_append _ _ _ _ _
          (sentinelImage_append _ _ _ _ _
            (sentinelImage_append _ _ _ _ _
              (sentinelImage_append _ _ _ _ _
                (sentinelImage_append _ _ _ _ _
                  (sentinelImage_append _ _ _ _ _
                    (sentinelImage_append _ _ _ _ _
                      (sentinelImage_append _ _ _ _ _
                        (sentinelImage_append _ _ _ _ _
                          (sentinelImage_append _ _ _ _ _
                            (sentinelImage_append _ _ _ _ _
                              (sentinelImage_append _ _ _ _ _
                                (sentinelImage_append _ _ _ _ _ pins (fr _ _))
                                (ms _))
                              (fr _ _))
                            (ms _))
                          (fr _ _))
                        (ms _))
                      (fr _ _))
                    (fr _ _))
                  (fr _ _))
                (fr _ _))
              (ms _))
            (fr _ _))
          (ms _))
        (fr _ _))
      (ms _))
    bl

theorem sentinel_applyOp (cfg : st7789_config) (csB : Int) (op : Op) (tA tB uA : Driver)
    (hpin : cfg.gpio_cs ≥ 0) (hsent : csB < 0)
    (hdin : cfg.gpio_din ≠ cfg.gpio_cs.toNat) (hclk : cfg.gpio_clk ≠ cfg.gpio_cs.toNat)
    (hdc : cfg.gpio_dc ≠ cfg.gpio_cs.toNat) (hrst : cfg.gpio_rst ≠ cfg.gpio_cs.toNat)
    (hbl : cfg.gpio_bl ≠ cfg.gpio_cs.toNat)
    (hcA : tA.st7789_cfg = cfg) (hcB : tB.st7789_cfg = { cfg with gpio_cs := csB })
    (hmode : tA.st7789_data_mode = tB.st7789_data_mode)
    (h : applyOp tA (op.withConfig cfg) = some uA) :
    ∃ uB, applyOp tB (op.withConfig { cfg with gpio_cs := csB }) = some uB
      ∧ uA.st7789_cfg = cfg ∧ uB.st7789_cfg = { cfg with gpio_cs := csB }
      ∧ uA.st7789_data_mode = uB.st7789_data_mode
      ∧ ∃ evA evB, uA.trace = tA.trace ++ evA ∧ uB.trace = tB.trace ++ evB
          ∧ SentinelImage cfg.gpio_cs.toNat evA evB := by
  have fr := fun cmd data => sentinelImage_frame cfg csB cmd data hpin hsent hdc
  cases op with
  | write data len =>
    have hu : uA = st7789_write tA data len := (Option.some.inj h).symm
    subst hu
    refine ⟨st7789_write tB data len, rfl, ?_⟩
    cases hm : tA.st7789_data_mode
    · have hmB : tB.st7789_data_mode = false := by rw [← hmode, hm]
      rw [st7789_write_cold tA data len hm, st7789_write_cold tB data len hmB]
      refine ⟨hcA, hcB, rfl, _, _, rfl, rfl, ?_⟩
      rw [hcA, hcB]
      have e1 := sentinelImage_append _ _ _ _ _ (sentinelImage_ramwr cfg csB hpin hsent hdc)
        (sentinelImage_write16 cfg.gpio_cs.toNat cfg.spi data (len / 2))
      simpa using e1
    · have hmB : tB.st7789_data_mode = true := by rw [← hmode, hm]
      rw [st7789_write_hot tA data len hm, st7789_write_hot tB data len hmB]
      refine ⟨hcA, hcB, by rw [hm, hmB], _, _, rfl, rfl, ?_⟩
      rw [hcA, hcB]
      exact sentinelImage_write16 _ _ _ _
  | set_window xs xe ys ye =>
    have hu : uA = st7789_set_window tA xs xe ys ye := (Option.some.inj h).symm
    subst hu
    refine ⟨st7789_set_window tB xs xe ys ye, rfl, ?_⟩
    rw [st7789_set_window_eq, st7789_set_window_eq]
    refine ⟨hcA, hcB, rfl, _, _, rfl, rfl, ?_⟩
    rw [hcA, hcB]
    exact sentinelImage_append _ _ _ _ _ (fr _ _) (fr _ _)
  | vertical_scroll row =>
    have hu : uA = st7789_vertical_scroll tA row := (Option.some.inj h).symm
    subst hu
    refine ⟨st7789_vertical_scroll tB row, rfl, ?_⟩
    rw [st7789_vertical_scroll_eq, st7789_vertical_scroll_eq]
    refine ⟨hcA, hcB, rfl, _, _, rfl, rfl, ?_⟩
    rw [hcA, hcB]
    exact fr _ _
  | init config width height rotation =>
    obtain ⟨m, hm, hu⟩ := st7789_init_some tA uA cfg width height rotation h
    subst hu
    exact ⟨_, st7789_init_eq tB _ width height rotation m hm, rfl, rfl, rfl, _, _, rfl, rfl,
      sentinelImage_initEvents cfg csB width height m hpin hsent hdin hclk hdc hrst hbl⟩

theorem sentinel_runOps (cfg : st7789_config) (csB : Int) (ops : List Op) (tA tB uA : Driver)
    (hpin : cfg.gpio_cs ≥ 0) (hsent : csB < 0)
    (hdin : cfg.gpio_din ≠ cfg.gpio_cs.toNat) (hclk : cfg.gpio_clk ≠ cfg.gpio_cs.toNat)
    (hdc : cfg.gpio_dc ≠ cfg.gpio_cs.toNat) (hrst : cfg.gpio_rst ≠ cfg.gpio_cs.toNat)
    (hbl : cfg.gpio_bl ≠ cfg.gpio_cs.toNat)
    (hcA : tA.st7789_cfg = cfg) (hcB : tB.st7789_cfg = { cfg with gpio_cs := csB })
    (hmode : tA.st7789_data_mode = tB.st7789_data_mode)
    (h : runOps tA (ops.map (Op.withConfig cfg)) = some uA) :
    ∃ uB, runOps tB (ops.map (Op.withConfig { cfg with gpio_cs := csB })) = some uB
      ∧ ∃ evA evB, uA.trace = tA.trace ++ evA ∧ uB.trace = tB.trace ++ evB
          ∧ SentinelImage cfg.gpio_cs.toNat evA evB := by
  induction ops generalizing tA tB with
  | nil =>
    have hu : uA = tA := (Option.some.inj h).symm
    subst hu
    exact ⟨tB, rfl, [], [], by simp, by simp, sentinelImage_nil _⟩
  | cons op ops ih =>
    rw [List.map_cons, runOps] at h
    cases hop : applyOp tA (op.withConfig cfg) with
    | none => rw [hop] at h; exact absurd h (by simp)
    | some vA =>
      rw [hop] at h
      obtain ⟨vB, hvB, c1, c2, c3, e1A, e1B, t1A, t1B, s1⟩ :=
        sentinel_applyOp cfg csB op tA tB vA hpin hsent hdin hclk hdc hrst hbl hcA hcB hmode hop
      obtain ⟨uB, huB, e2A, e2B, t2A, t2B, s2⟩ := ih vA vB c1 c2 c3 h
      refine ⟨uB, ?_, e1A ++ e2A, e1B ++ e2B, by rw [t2A, t1A, List.append_assoc],
        by rw [t2B, t1B, List.append_assoc], sentinelImage_append _ _ _ _ _ s1 s2⟩
      rw [List.map_cons, runOps, hvB]
      exact huB

/-- C13: take a configuration with a chip-select pin (`gpio_cs ≥ 0`, its number
different from the other five pins) and the configuration that differs from it
only in `gpio_cs`, which is negative.  Run any sequence of public operations on
two drivers, one under each configuration (every `st7789_init` in the sequence
is given the configuration of its driver), either from two states that store
the respective configuration and agree on the mode cache, or from one common
state with `st7789_init` as the first operation.  If the run with the pin
returns then so does the run without, and what the run without the pin emits is
what the run with the pin emits with every GPIO event on the chip-select pin
removed and every bus format (CPOL, CPHA) = (0, 0) replaced by (1, 1).  The run
without the pin emits no event that names the chip-select line; all its bus
formats have (1, 1), all those of the run with the pin have (0, 0). -/
theorem sentinel_trace (cfg : st7789_config) (csB : Int)
    (hpin : cfg.gpio_cs ≥ 0) (hsent : csB < 0)
    (hdin : cfg.gpio_din ≠ cfg.gpio_cs.toNat) (hclk : cfg.gpio_clk ≠ cfg.gpio_cs.toNat)
    (hdc : cfg.gpio_dc ≠ cfg.gpio_cs.toNat) (hrst : cfg.gpio_rst ≠ cfg.gpio_cs.toNat)
    (hbl : cfg.gpio_bl ≠ cfg.gpio_cs.toNat) :
    (∀ (tA tB : Driver) (ops : List Op) (sA : Driver),
      tA.st7789_cfg = cfg → tB.st7789_cfg = { cfg with gpio_cs := csB } →
      tA.st7789_data_mode = tB.st7789_data_mode →
      runOps tA (ops.map (Op.withConfig cfg)) = some sA →
      ∃ sB, runOps tB (ops.map (Op.withConfig { cfg with gpio_cs := csB })) = some sB
        ∧ emitted tB sB = (emitted tA sA).filterMap (sentinelView cfg.gpio_cs.toNat)
        ∧ (emitted tB sB).all (fun e => !onLine .cs e) = true
        ∧ (∀ q ∈ polaritiesOf (emitted tA sA), q = (0, 0))
        ∧ (∀ q ∈ polaritiesOf (emitted tB sB), q = (1, 1)))
    ∧ (∀ (s0 : Driver) (width height rotation : Nat) (ops : List Op) (sA : Driver),
      runOps s0 (Op.init cfg width height rotation :: ops.map (Op.withConfig cfg)) = some sA →
      ∃ sB, runOps s0 (Op.init { cfg with gpio_cs := csB } width height rotation
            :: ops.map (Op.withConfig { cfg with gpio_cs := csB })) = some sB
        ∧ emitted s0 sB = (emitted s0 sA).filterMap (sentinelView cfg.gpio_cs.toNat)
        ∧ (emitted s0 sB).all (fun e => !onLine .cs e) = true
        ∧ (∀ q ∈ polaritiesOf (emitted s0 sA), q = (0, 0))
        ∧ (∀ q ∈ polaritiesOf (emitted s0 sB), q = (1, 1))) := by
  constructor
  · intro tA tB ops sA hcA hcB hmode hrun
    obtain ⟨sB, hsB, evA, evB, trA, trB, im, nocs, pa, pb⟩ :=
      sentinel_runOps cfg csB ops tA tB sA hpin hsent hdin hclk hdc hrst hbl hcA hcB hmode hrun
    refine ⟨sB, hsB, ?_⟩
    rw [emitted_append tA sA evA trA, emitted_append tB sB evB trB]
    exact ⟨im, nocs, pa, pb⟩
  · intro s0 width height rotation ops sA hrun
    rw [runOps] at hrun
    cases hop : applyOp s0 (Op.init cfg width height rotation) with
    | none => rw [hop] at hrun; exact absurd hrun (by simp)
    | some vA =>
      rw [hop] at hrun
      obtain ⟨m, hm, hv⟩ := st7789_init_some s0 vA cfg width height rotation hop
      subst hv
      have hrun2 : runOps
          { st7789_cfg := cfg, st7789_width := width, st7789_height := height,
            st7789_data_mode := false, trace := s0.trace ++ initEvents cfg width height m }
          (ops.map (Op.withConfig cfg)) = some sA := hrun
      obtain ⟨sB, hsB, e2A, e2B, t2A, t2B, s2⟩ :=
        sentinel_runOps cfg csB ops
          { st7789_cfg := cfg, st7789_width := width, st7789_height := height,
            st7789_data_mode := false, trace := s0.trace ++ initEvents cfg width height m }
          { st7789_cfg := { cfg with gpio_cs := csB }, st7789_width := width,
            st7789_height := height, st7789_data_mode := false,
            trace := s0.trace ++ initEvents { cfg with gpio_cs := csB } width height m }
          sA hpin hsent hdin hclk hdc hrst hbl rfl rfl rfl hrun2
      have s1 :=
        sentinelImage_initEvents cfg csB width height m hpin hsent hdin hclk hdc hrst hbl
      obtain ⟨im, nocs, pa, pb⟩ := sentinelImage_append _ _ _ _ _ s1 s2
      have eA : emitted s0 sA = initEvents cfg width height m ++ e2A :=
        emitted_append _ _ _ (by rw [t2A, List.append_assoc])
      have eB : emitted s0 sB = initEvents { cfg with gpio_cs := csB } width height m ++ e2B :=
        emitted_append _ _ _ (by rw [t2B, List.append_assoc])
      refine ⟨sB, ?_, ?_, ?_, ?_, ?_⟩
      · rw [runOps]
        have hB : applyOp s0 (Op.init { cfg with gpio_cs := csB } width height rotation) = _ :=
          st7789_init_eq s0 { cfg with gpio_cs := csB } width height rotation m hm
        rw [hB]
        exact hsB
      · rw [eA, eB]; exact im
      · rw [eB]; exact nocs
      · rw [eA]; exact pa
      · rw [eB]; exact pb

theorem sentinel_trace_witness :
    (17 : Int) ≥ 0 ∧ (-1 : Int) < 0
    ∧ (19 : Nat) ≠ (17 : Int).toNat ∧ (18 : Nat) ≠ (17 : Int).toNat
    ∧ (20 : Nat) ≠ (17 : Int).toNat ∧ (21 : Nat) ≠ (17 : Int).toNat
    ∧ (22 : Nat) ≠ (17 : Int).toNat
    ∧ runOps Driver.boot (Op.init ⟨0, 19, 18, 17, 20, 21, 22⟩ 240 320 0
          :: [Op.set_window 0 9 0 9, Op.write [0x12, 0x34] 2].map
              (Op.withConfig ⟨0, 19, 18, 17, 20, 21, 22⟩)) =
        some (st7789_write (st7789_set_window
          ⟨⟨0, 19, 18, 17, 20, 21, 22⟩, 240, 320, false,
            initEvents ⟨0, 19, 18, 17, 20, 21, 22⟩ 240 320 0⟩ 0 9 0 9) [0x12, 0x34] 2)
    ∧ ∃ sB, runOps Driver.boot (Op.init ⟨0, 19, 18, -1, 20, 21, 22⟩ 240 320 0
          :: [Op.set_window 0 9 0 9, Op.write [0x12, 0x34] 2].map
              (Op.withConfig ⟨0, 19, 18, -1, 20, 21, 22⟩)) = some sB
      ∧ emitted Driver.boot sB =
          (emitted Driver.boot (st7789_write (st7789_set_window
            ⟨⟨0, 19, 18, 17, 20, 21, 22⟩, 240, 320, false,
              initEvents ⟨0, 19, 18, 17, 20, 21, 22⟩ 240 320 0⟩ 0 9 0 9) [0x12, 0x34] 2)
          ).filterMap (sentinelView 17) :=
  have hrun : runOps Driver.boot (Op.init ⟨0, 19, 18, 17, 20, 21, 22⟩ 240 320 0
        :: [Op.set_window 0 9 0 9, Op.write [0x12, 0x34] 2].map
            (Op.withConfig ⟨0, 19, 18, 17, 20, 21, 22⟩)) =
      some (st7789_write (st7789_set_window
        ⟨⟨0, 19, 18, 17, 20, 21, 22⟩, 240, 320, false,
          initEvents ⟨0, 19, 18, 17, 20, 21, 22⟩ 240 320 0⟩ 0 9 0 9) [0x12, 0x34] 2) := by
    rw [runOps]
    have hi : applyOp Driver.boot (Op.init ⟨0, 19, 18, 17, 20, 21, 22⟩ 240 320 0) = _ :=
      st7789_init_eq Driver.boot ⟨0, 19, 18, 17, 20, 21, 22⟩ 240 320 0 0 rfl
    rw [hi]
    rfl
  ⟨by decide, by decide, by decide, by decide, by decide, by decide, by decide, hrun,
    match (sentinel_trace ⟨0, 19, 18, 17, 20, 21, 22⟩ (-1)
        (by decide) (by decide) (by decide) (by decide) (by decide) (by decide)
        (by decide)).2 Driver.boot 240 320 0
        [Op.set_window 0 9 0 9, Op.write [0x12, 0x34] 2] _ hrun with
    | ⟨sB, h1, h2, _⟩ => ⟨sB, h1, h2⟩⟩

end St7789
